import Mathlib

/-!
Shallow embedding of the RapidPro channel-handler layer
(`temba/channels/handlers.py`): the message/channel data model, the
per-provider status tables, and the handler actions that the verified
claims are about.  Django querysets become list operations, HTTP
requests become explicit parameters (route kwargs, query/form values),
and the backing store becomes an explicit `Store` value threaded through
each handler.  External collaborator calls (task enqueue, webhooks,
trigger firing, channel health tracking) are recorded as events on the
store.  The signature check of the Twilio `RequestValidator` library is
an opaque boolean input to the handler, standing for the outcome of
`validator.validate(url, request.POST, signature)`.
-/

/-- Internal message status vocabulary (`temba.msgs.models`). -/
inductive MsgStatus where
  | pending | queued | wired | sent | delivered | failed | interrupted
  deriving DecidableEq, Repr

/-- Message direction (`temba.msgs.models`: INCOMING / OUTGOING). -/
inductive Direction where
  | incoming | outgoing
  deriving DecidableEq, Repr

/-- Channel provider types used by the handlers embedded here (the
`Channel.TYPE_*` discriminators from `temba.channels.models`). -/
inductive ChannelType where
  | kannel | clickatell | plivo | twiml | twilio | vumi | vumiUssd
  | infobip | blackmyna | highConnection | facebook | zenvia | viber
  deriving DecidableEq, Repr

/-- A configured channel record, with the fields the embedded handlers
read (`temba.channels.models.Channel`).  `configApiId` is the
`config_json()[Channel.CONFIG_API_ID]` entry read by the Clickatell
handler. -/
structure Channel where
  id : Nat
  uuid : String
  channelType : ChannelType
  address : String
  role : String
  isActive : Bool
  orgId : Option Nat
  configApiId : Option String
  deriving DecidableEq, Repr

/-- A message record, with the fields the embedded handlers read and
write (`temba.msgs.models.Msg`). -/
structure Msg where
  id : Nat
  channelId : Nat
  direction : Direction
  status : MsgStatus
  externalId : Option String
  urn : String
  text : String
  date : Nat
  broadcast : Option Nat
  deriving DecidableEq, Repr

/-- The shared mutable store the handlers touch: channels, messages, a
fresh-id counter for created messages and a log of collaborator side
effects (task enqueues, webhook events, trigger firing, channel health
tracking, contact operations). -/
structure Store where
  channels : List Channel
  msgs : List Msg
  nextId : Nat
  events : List String
  deriving DecidableEq, Repr

structure HttpResponse where
  body : String
  status : Nat
  deriving DecidableEq, Repr

/-- Outcome of one handler invocation: an HTTP response, or an uncaught
exception aborting the request (Django turns it into a 500 / error
response upstream), each together with the store as the handler left
it. -/
inductive HResult where
  | resp (r : HttpResponse) (s : Store)
  | exn (e : String) (s : Store)
  deriving DecidableEq, Repr

def HResult.store : HResult → Store
  | .resp _ s => s
  | .exn _ s => s

def HResult.response : HResult → Option HttpResponse
  | .resp r _ => some r
  | .exn _ _ => none

/-- Whether a status is one of PENDING, QUEUED, WIRED (the
`status__in=[PENDING, QUEUED, WIRED]` filter used before a SENT
transition). -/
def statusInPQW (st : MsgStatus) : Bool :=
  st == .pending || st == .queued || st == .wired

/-- Modelled from the spec: `Msg.status_sent` is defined in
`temba/msgs/models.py`, which is not part of this source tree.  Per
section 4.4 the transition to SENT is applied only when the current
status is PENDING, QUEUED or WIRED; a message already SENT or DELIVERED
is left untouched. -/
def Msg.status_sent (m : Msg) : Msg :=
  if statusInPQW m.status then { m with status := .sent } else m

/-- Modelled from the spec: `Msg.status_delivered` is defined in
`temba/msgs/models.py`, which is not part of this source tree.  Per
section 4.4 the transition to DELIVERED is applied unconditionally. -/
def Msg.status_delivered (m : Msg) : Msg :=
  { m with status := .delivered }

/-- Modelled from the spec: `Msg.fail` is defined in
`temba/msgs/models.py`, which is not part of this source tree.  Per
section 4.4 the transition to FAILED is applied unconditionally. -/
def Msg.fail (m : Msg) : Msg :=
  { m with status := .failed }

/-- Modelled from the spec: `Msg.create_incoming` is defined in
`temba/msgs/models.py`, which is not part of this source tree.  Per
section 4.4 it inserts a new inbound Message with a server-assigned id;
each caller below passes the date it computed (the parsed provider date,
or the receipt time when the provider supplied none) and the status
(PENDING except for the Vumi USSD close event). -/
def createIncoming (s : Store) (channelId : Nat) (urn : String)
    (text : String) (date : Nat) (st : MsgStatus) : Msg × Store :=
  let m : Msg :=
    { id := s.nextId, channelId := channelId, direction := .incoming,
      status := st, externalId := none, urn := urn, text := text,
      date := date, broadcast := none }
  (m, { s with msgs := s.msgs ++ [m], nextId := s.nextId + 1 })

/-- Lookup in a Django QueryDict (`request.GET[name]` /
`request.POST[name]`): the last value bound to the key, absent key means
KeyError. -/
def qdictGet (l : List (String × String)) (name : String) : Option String :=
  (l.filterMap (fun p => if p.1 == name then some p.2 else none)).getLast?

/-- `BaseChannelHandler.get_param`: try the query string first, fall
back to the POST body, then to the supplied default. -/
def get_param (g p : List (String × String)) (name : String)
    (deflt : Option String) : Option String :=
  match qdictGet g name with
  | some v => some v
  | none =>
    match qdictGet p name with
    | some v => some v
    | none => deflt

/-- Python `int(s)` for a decimal string (the cases the handlers feed
it): every character a digit, otherwise a ValueError. -/
def strToNat? (s : String) : Option Nat :=
  let cs := s.toList
  if cs.isEmpty || !cs.all Char.isDigit then none
  else some (cs.foldl (fun acc c => acc * 10 + (c.toNat - 48)) 0)

/-- Python `s.split(sep)` for a one-character separator, over the
character list. -/
def splitOnChar (sep : Char) : List Char → List (List Char)
  | [] => [[]]
  | c :: rest =>
    let r := splitOnChar sep rest
    if c == sep then [] :: r
    else
      match r with
      | [] => [[c]]
      | g :: gs => (c :: g) :: gs

/-- Python `s.split(sep)` for a one-character separator. -/
def strSplitOnChar (sep : Char) (s : String) : List String :=
  (splitOnChar sep s.toList).map (fun g => ⟨g⟩)

/-- Python `s.lower()`. -/
def strToLower (s : String) : String :=
  ⟨s.toList.map Char.toLower⟩

/-- Python `s.startswith('+')` (equivalently `s[0] == '+'` on a
non-empty string). -/
def startsWithPlus (s : String) : Bool :=
  match s.toList with
  | [] => false
  | c :: _ => c == '+'

/-- The channel lookup idiom shared by the handlers:
`Channel.objects.filter(uuid=..., is_active=True, channel_type=T)
.exclude(org=None).first()`. -/
def activeChannelLookup (channels : List Channel) (uuid : String)
    (t : ChannelType) : Option Channel :=
  (channels.filter (fun c =>
    c.uuid == uuid && c.isActive && c.channelType == t && c.orgId.isSome)).head?

/-- The channel lookup of `PlivoHandler.post`:
`Channel.objects.filter(is_active=True, uuid=request_uuid,
channel_type=Channel.TYPE_PLIVO).first()` — unlike the other handlers it
has no `.exclude(org=None)`. -/
def plivoChannelLookup (channels : List Channel) (uuid : String) :
    Option Channel :=
  (channels.filter (fun c =>
    c.isActive && c.uuid == uuid && c.channelType == .plivo)).head?

/-- `Msg.objects.filter(pk=...).update(external_id=...)` as used after a
created incoming message, to persist the provider-assigned external
id. -/
def setExternalId (msgs : List Msg) (pk : Nat) (ext : String) : List Msg :=
  msgs.map (fun m => if m.id == pk then { m with externalId := some ext } else m)

/-- Kannel delivery status table (`KannelHandler.post` STATUS_CHOICES):
1 delivered, 2 failed, 4 sent, 8 sent, 16 failed. -/
def kannelStatusChoices (code : String) : Option MsgStatus :=
  if code == "1" then some .delivered
  else if code == "2" then some .failed
  else if code == "4" then some .sent
  else if code == "8" then some .sent
  else if code == "16" then some .failed
  else none

/-- Per-message effect of the Kannel status action on the messages
matching `filter(channel=channel, id=sms_id)`: SENT only for messages
still PENDING/QUEUED/WIRED, DELIVERED and FAILED for every matching
message. -/
def kannelApplyStatus (ch : Channel) (smsId : Nat) (st : MsgStatus)
    (m : Msg) : Msg :=
  if m.channelId == ch.id && m.id == smsId then
    if st == .sent then
      (if statusInPQW m.status then m.status_sent else m)
    else if st == .delivered then m.status_delivered
    else if st == .failed then m.fail
    else m
  else m

/-- The `action == 'status'` branch of `KannelHandler.post`. -/
def kannelStatusAction (channel : Channel) (smsId statusCode : Option String)
    (s : Store) : HResult :=
  if smsId.isNone && statusCode.isNone then
    .resp ⟨"Missing one of 'id' or 'status' in request parameters.", 400⟩ s
  else
    match smsId with
    | none =>
      .resp ⟨"Message with external id of 'None' not found", 400⟩ s
    | some idStr =>
      match strToNat? idStr with
      | none => .exn "ValueError: invalid message id" s
      | some n =>
        let sms := s.msgs.filter (fun m => m.channelId == channel.id && m.id == n)
        if sms.isEmpty then
          .resp ⟨"Message with external id of '" ++ idStr ++ "' not found", 400⟩ s
        else
          match statusCode.bind kannelStatusChoices with
          | none =>
            .resp ⟨"Unrecognized status code: '" ++ statusCode.getD "None" ++
                   "', ignoring message.", 401⟩ s
          | some st =>
            .resp ⟨"SMS Status Updated", 200⟩
              { s with msgs := s.msgs.map (kannelApplyStatus channel n st) }

/-- The `action == 'receive'` branch of `KannelHandler.post`.  Note that
the source passes no date to `Msg.create_incoming` (the `date=gmt_date`
argument is commented out), so the created message carries the receipt
time `now`; `int(sms_ts)` still runs and raises on a malformed
timestamp. -/
def kannelReceiveAction (channel : Channel)
    (smsId ts message sender : Option String) (now : Nat) (s : Store) :
    HResult :=
  match smsId, ts, message, sender with
  | some i, some t, some msgText, some senderTel =>
    match strToNat? t with
    | none => .exn "ValueError: invalid timestamp" s
    | some _ =>
      let created := createIncoming s channel.id ("tel:" ++ senderTel) msgText now .pending
      .resp ⟨"SMS Accepted: " ++ toString created.1.id, 200⟩
        { created.2 with msgs := setExternalId created.2.msgs created.1.id i }
  | _, _, _, _ =>
    .resp ⟨"Missing one of 'message', 'sender', 'id' or 'ts' in request parameters.", 400⟩ s

/-- `KannelHandler.post`: channel lookup by uuid (active, Kannel type,
with an organization), then the status or receive action.  The request
parameters arrive as the values `get_param` produced. -/
def kannelPost (action uuid : String)
    (smsId statusCode ts message sender : Option String) (now : Nat)
    (s : Store) : HResult :=
  match activeChannelLookup s.channels uuid .kannel with
  | none => .resp ⟨"Channel not found for id: " ++ uuid, 400⟩ s
  | some channel =>
    if action == "status" then
      kannelStatusAction channel smsId statusCode s
    else if action == "receive" then
      kannelReceiveAction channel smsId ts message sender now s
    else
      .resp ⟨"Not handled", 400⟩ s

/-- Clickatell delivery status table (`ClickatellHandler.post`
STATUS_CHOICES). -/
def clickatellStatusChoices (code : String) : Option MsgStatus :=
  if code == "001" then some .failed
  else if code == "002" then some .wired
  else if code == "003" then some .sent
  else if code == "004" then some .delivered
  else if code == "005" then some .failed
  else if code == "006" then some .failed
  else if code == "007" then some .failed
  else if code == "008" then some .wired
  else if code == "009" then some .failed
  else if code == "010" then some .failed
  else if code == "011" then some .wired
  else if code == "012" then some .failed
  else if code == "014" then some .failed
  else none

/-- The Clickatell status lookup
`filter(channel=channel, external_id=sms_id)`. -/
def clickatellMatch (ch : Channel) (ext : String) (m : Msg) : Bool :=
  m.channelId == ch.id && m.externalId == some ext

/-- Per-message effect of the Clickatell status action: SENT only for
messages still PENDING/QUEUED/WIRED, DELIVERED and FAILED for every
matching message, WIRED ignored. -/
def clickatellApplyStatus (ch : Channel) (ext : String) (st : MsgStatus)
    (m : Msg) : Msg :=
  if clickatellMatch ch ext m then
    if st == .sent then
      (if statusInPQW m.status then m.status_sent else m)
    else if st == .delivered then m.status_delivered
    else if st == .failed then m.fail
    else m
  else m

/-- The `action == 'status'` branch of `ClickatellHandler.post`: message
lookup by external id, the fixed status table (unrecognized code is a
401), the per-message transition (with `Channel.track_status` on
FAILED), then the broadcast update of `sms.first()`. -/
def clickatellStatusAction (channel : Channel)
    (smsId statusCode : Option String) (s : Store) : HResult :=
  match smsId, statusCode with
  | some ext, some code =>
    let sms := s.msgs.filter (clickatellMatch channel ext)
    if sms.isEmpty then
      .resp ⟨"Message with external id of '" ++ ext ++ "' not found", 400⟩ s
    else
      match clickatellStatusChoices code with
      | none =>
        .resp ⟨"Unrecognized status code: '" ++ code ++ "', ignoring message.", 401⟩ s
      | some st =>
        let msgs1 := s.msgs.map (clickatellApplyStatus channel ext st)
        let ev1 :=
          if st == .failed then
            s.events ++ sms.map (fun _ => "track_status Failed")
          else s.events
        let bcastEv :=
          match (msgs1.filter (clickatellMatch channel ext)).head? with
          | some m =>
            match m.broadcast with
            | some b => ["broadcast_update " ++ toString b]
            | none => []
          | none => []
        .resp ⟨"SMS Status Updated", 200⟩
          { s with msgs := msgs1, events := ev1 ++ bcastEv }
  | _, _ =>
    .resp ⟨"Missing one of 'apiMsgId' or 'status' in request parameters.", 200⟩ s

/-- The `action == 'receive'` branch of `ClickatellHandler.post`.  A
missing field returns 200 (Clickatell pings the endpoint during
configuration); `recode charset text` stands for the byte-level
re-encoding applied for `UTF-16BE` and `ISO-8859-1` payloads, and
`parseDate` for `parse_datetime` plus the `Etc/GMT-2` localization,
which raises on an unparsable timestamp. -/
def clickatellReceiveAction (channel : Channel)
    (smsFrom smsText moMsgId smsTimestamp : Option String) (charset : String)
    (recode : String → String → String) (parseDate : String → Option Nat)
    (s : Store) : HResult :=
  match smsFrom, smsText, moMsgId, smsTimestamp with
  | some f, some t, some i, some tsStr =>
    match parseDate tsStr with
    | none => .exn "invalid timestamp for localize" s
    | some d =>
      let text1 :=
        if charset == "UTF-16BE" then recode "UTF-16BE" t
        else if charset == "ISO-8859-1" then recode "ISO-8859-1" t
        else t
      let created := createIncoming s channel.id ("tel:" ++ f) text1 d .pending
      .resp ⟨"SMS Accepted: " ++ toString created.1.id, 200⟩
        { created.2 with msgs := setExternalId created.2.msgs created.1.id i }
  | _, _, _, _ =>
    .resp ⟨"Missing one of 'from', 'text', 'moMsgId' or 'timestamp' in request parameters.", 200⟩ s

/-- The action dispatch of `ClickatellHandler.post`, after the channel
lookup and the API-id check. -/
def clickatellAction (action : String) (channel : Channel)
    (smsId statusCode smsFrom smsText moMsgId smsTimestamp : Option String)
    (charset : String) (recode : String → String → String)
    (parseDate : String → Option Nat) (s : Store) : HResult :=
  if action == "status" then
    clickatellStatusAction channel smsId statusCode s
  else if action == "receive" then
    clickatellReceiveAction channel smsFrom smsText moMsgId smsTimestamp
      charset recode parseDate s
  else
    .resp ⟨"Not handled", 400⟩ s

/-- `ClickatellHandler.post`: channel lookup, then the API-id check —
performed only when the request carries an `api_id` parameter
(`if api_id is not None and channel.config_json()[Channel.CONFIG_API_ID]
!= api_id`), then the action dispatch. -/
def clickatellPost (action uuid : String) (apiId : Option String)
    (smsId statusCode smsFrom smsText moMsgId smsTimestamp : Option String)
    (charset : String) (recode : String → String → String)
    (parseDate : String → Option Nat) (s : Store) : HResult :=
  match activeChannelLookup s.channels uuid .clickatell with
  | none => .resp ⟨"Channel not found for id: " ++ uuid, 400⟩ s
  | some channel =>
    match apiId with
    | some v =>
      match channel.configApiId with
      | none => .exn "KeyError: api_id" s
      | some c =>
        if c != v then
          .resp ⟨"Invalid API id for message delivery: " ++ v, 400⟩ s
        else
          clickatellAction action channel smsId statusCode smsFrom smsText
            moMsgId smsTimestamp charset recode parseDate s
    | none =>
      clickatellAction action channel smsId statusCode smsFrom smsText
        moMsgId smsTimestamp charset recode parseDate s

/-- In-place mutation of the first queryset match
(`qs.first()` followed by a save on that single object). -/
def updateFirstMsg (msgs : List Msg) (p : Msg → Bool) (f : Msg → Msg) :
    List Msg :=
  match msgs with
  | [] => []
  | m :: rest => if p m then f m :: rest else m :: updateFirstMsg rest p f

/-- Plivo delivery status table (`PlivoHandler.post` STATUS_CHOICES). -/
def plivoStatusChoices (code : String) : Option MsgStatus :=
  if code == "queued" then some .wired
  else if code == "sent" then some .sent
  else if code == "delivered" then some .delivered
  else if code == "undelivered" then some .sent
  else if code == "rejected" then some .failed
  else none

/-- The Plivo status lookup
`filter(channel=channel, external_id=sms_id)`. -/
def plivoMatch (ch : Channel) (ext : String) (m : Msg) : Bool :=
  m.channelId == ch.id && m.externalId == some ext

/-- Per-message effect of the Plivo status action: SENT only for
messages still PENDING/QUEUED/WIRED, DELIVERED and FAILED for every
matching message, WIRED ignored. -/
def plivoApplyStatus (ch : Channel) (ext : String) (st : MsgStatus)
    (m : Msg) : Msg :=
  if plivoMatch ch ext m then
    if st == .sent then
      (if statusInPQW m.status then m.status_sent else m)
    else if st == .delivered then m.status_delivered
    else if st == .failed then m.fail
    else m
  else m

/-- `channel_address = ...; if channel_address[0] != '+': channel_address
= '+' + channel_address` — the indexing raises on an empty string. -/
def plusNormalize (a : String) : Option String :=
  if a == "" then none
  else if startsWithPlus a then some a
  else some ("+" ++ a)

/-- The `action == 'status'` branch of `PlivoHandler.post`: the sending
address must match the channel address (after prepending `+` when
missing), then message lookup by `MessageUUID` (or `ParentMessageUUID`
when supplied), the fixed status table, the per-message transition and
the broadcast update. -/
def plivoStatusAction (chOpt : Option Channel) (smsFrom smsId : String)
    (plivoStatus parentId : Option String) (s : Store) : HResult :=
  match plivoStatus with
  | none => .resp ⟨"Missing 'Status' in request parameters.", 400⟩ s
  | some pst =>
    match chOpt with
    | none => .resp ⟨"Channel not found for number: " ++ smsFrom, 400⟩ s
    | some channel =>
      match plusNormalize smsFrom with
      | none => .exn "IndexError: string index out of range" s
      | some channelAddress =>
        if channel.address != channelAddress then
          .resp ⟨"Channel not found for number: " ++ smsFrom, 400⟩ s
        else
          let ext := match parentId with | some pid => pid | none => smsId
          let sms := s.msgs.filter (plivoMatch channel ext)
          if sms.isEmpty then
            .resp ⟨"Message with external id of '" ++ ext ++ "' not found", 400⟩ s
          else
            match plivoStatusChoices pst with
            | none =>
              .resp ⟨"Unrecognized status: '" ++ pst ++ "', ignoring message.", 401⟩ s
            | some st =>
              let msgs1 := s.msgs.map (plivoApplyStatus channel ext st)
              let ev1 :=
                if st == .failed then
                  s.events ++ sms.map (fun _ => "track_status Failed")
                else s.events
              let bcastEv :=
                match (msgs1.filter (plivoMatch channel ext)).head? with
                | some m =>
                  match m.broadcast with
                  | some b => ["broadcast_update " ++ toString b]
                  | none => []
                | none => []
              .resp ⟨"Status Updated", 200⟩
                { s with msgs := msgs1, events := ev1 ++ bcastEv }

/-- The `action == 'receive'` branch of `PlivoHandler.post`: the
destination address must match the channel address (after prepending `+`
when missing); on success an inbound message is created with the
`MessageUUID` persisted as external id. -/
def plivoReceiveAction (chOpt : Option Channel) (smsFrom smsTo smsId : String)
    (smsText : Option String) (now : Nat) (s : Store) : HResult :=
  match smsText with
  | none => .resp ⟨"Missing 'Text' in request parameters.", 400⟩ s
  | some text =>
    match chOpt with
    | none => .resp ⟨"Channel not found for number: " ++ smsTo, 400⟩ s
    | some channel =>
      match plusNormalize smsTo with
      | none => .exn "IndexError: string index out of range" s
      | some channelAddress =>
        if channel.address != channelAddress then
          .resp ⟨"Channel not found for number: " ++ smsTo, 400⟩ s
        else
          let created := createIncoming s channel.id ("tel:" ++ smsFrom) text now .pending
          .resp ⟨"SMS accepted: " ++ toString created.1.id, 200⟩
            { created.2 with msgs := setExternalId created.2.msgs created.1.id smsId }

/-- `PlivoHandler.post`: the three parameters `From`, `To` and
`MessageUUID` are required for either action, then the channel lookup
(without the org filter) and the action dispatch. -/
def plivoPost (action uuid : String)
    (smsFrom smsTo smsId plivoStatus parentId smsText : Option String)
    (now : Nat) (s : Store) : HResult :=
  match smsFrom, smsTo, smsId with
  | some f, some t, some i =>
    let chOpt := plivoChannelLookup s.channels uuid
    if action == "status" then
      plivoStatusAction chOpt f i plivoStatus parentId s
    else if action == "receive" then
      plivoReceiveAction chOpt f t i smsText now s
    else
      .resp ⟨"Not handled", 400⟩ s
  | _, _, _ =>
    .resp ⟨"Missing one of 'From', 'To', or 'MessageUUID' in request parameters.", 400⟩ s

/-- The message part of a Viber payload
(`body['message']` with its `text`). -/
structure ViberMessage where
  text : Option String
  deriving DecidableEq, Repr

/-- A parsed Viber JSON payload. -/
structure ViberBody where
  messageToken : Option Nat
  phoneNumber : Option String
  time : Option Nat
  message : Option ViberMessage
  deriving DecidableEq, Repr

/-- The Viber status lookup `filter(channel=channel, direction='O',
external_id=external_id)`. -/
def viberMatch (ch : Channel) (ext : String) (m : Msg) : Bool :=
  m.channelId == ch.id && m.direction == .outgoing && m.externalId == some ext

/-- The `action == 'status'` branch of `ViberHandler.post`: the first
outgoing message with the given `message_token` is marked DELIVERED
unconditionally; a miss is answered with a 200 (Viber hammers the
endpoint when given 400s). -/
def viberStatusAction (channel : Channel) (b : ViberBody) (s : Store) :
    HResult :=
  match b.messageToken with
  | none => .exn "KeyError: message_token" s
  | some tok =>
    match s.msgs.find? (viberMatch channel (toString tok)) with
    | none =>
      .resp ⟨"Message with external id of '" ++ toString tok ++ "' not found", 200⟩ s
    | some m =>
      .resp ⟨"Msg " ++ toString m.id ++ " updated", 200⟩
        { s with msgs := (updateFirstMsg s.msgs (viberMatch channel (toString tok))
            Msg.status_delivered) }

/-- The `action == 'receive'` branch of `ViberHandler.post`. -/
def viberReceiveAction (channel : Channel) (b : ViberBody) (s : Store) :
    HResult :=
  match b.messageToken, b.phoneNumber, b.time, b.message with
  | some tok, some phone, some tm, some vmsg =>
    match vmsg.text with
    | none => .exn "KeyError: text" s
    | some text =>
      let created := createIncoming s channel.id ("tel:" ++ phone) text tm .pending
      .resp ⟨"Msg Accepted: " ++ toString created.1.id, 200⟩
        { created.2 with msgs := setExternalId created.2.msgs created.1.id (toString tok) }
  | _, _, _, _ =>
    .resp ⟨"Missing one of 'message_token', 'phone_number', 'time', or 'message' in request parameters.", 400⟩ s

/-- `ViberHandler.post`: channel lookup, JSON parse, action dispatch. -/
def viberPost (action uuid : String) (body : Option ViberBody) (s : Store) :
    HResult :=
  match activeChannelLookup s.channels uuid .viber with
  | none => .resp ⟨"Channel not found for id: " ++ uuid, 400⟩ s
  | some channel =>
    match body with
    | none => .resp ⟨"Invalid JSON in POST body", 400⟩ s
    | some b =>
      if action == "status" then viberStatusAction channel b s
      else if action == "receive" then viberReceiveAction channel b s
      else .resp ⟨"Not handled, unknown action", 400⟩ s

/-- A parsed Vumi JSON payload. -/
structure VumiBody where
  transportName : Option String
  transportType : Option String
  eventType : Option String
  userMessageId : Option String
  nackReason : Option String
  deliveryStatus : Option String
  timestamp : Option String
  fromAddr : Option String
  content : Option String
  messageId : Option String
  sessionEvent : Option String
  deriving DecidableEq, Repr

/-- Substring test for `"ussd" in body.get('transport_name', '')`. -/
def containsUssd : List Char → Bool
  | [] => false
  | c :: rest => ((c :: rest).take 4 == ['u', 's', 's', 'd']) || containsUssd rest

/-- `VumiHandler.post` transport discrimination between the USSD and SMS
Vumi channel types. -/
def vumiIsUssd (b : VumiBody) : Bool :=
  containsUssd (b.transportName.getD "").toList || b.transportType == some "ussd"

/-- The Vumi event lookup
`filter(channel=channel, external_id=external_id)`. -/
def vumiMatch (ch : Channel) (ext : String) (m : Msg) : Bool :=
  m.channelId == ch.id && m.externalId == some ext

/-- The `action == 'event'` branch of `VumiHandler.post`: an `ack` bulk
updates matching PENDING/QUEUED/WIRED messages to SENT, a `nack` with
reason "Unknown address." stops the contact, a `delivery_report` marks
the first matching message DELIVERED only from WIRED (a failed report is
deliberately ignored), and any other event type is acknowledged with a
200 without touching state. -/
def vumiEventAction (channel : Channel) (b : VumiBody) (s : Store) : HResult :=
  if b.eventType.isNone && b.userMessageId.isNone then
    .resp ⟨"Missing event_type or user_message_id, ignoring message", 400⟩ s
  else
    match b.userMessageId with
    | none => .exn "KeyError: user_message_id" s
    | some ext =>
      match b.eventType with
      | none => .exn "KeyError: event_type" s
      | some status =>
        let message := s.msgs.filter (vumiMatch channel ext)
        if message.isEmpty then
          .resp ⟨"Message with external id of '" ++ ext ++ "' not found", 404⟩ s
        else
          if !(status == "ack" || status == "nack" || status == "delivery_report") then
            .resp ⟨"Unknown status '" ++ status ++ "', ignoring", 200⟩ s
          else
            let s1 :=
              if status == "ack" then
                { s with msgs := s.msgs.map (fun m =>
                    if vumiMatch channel ext m && statusInPQW m.status then
                      { m with status := .sent }
                    else m) }
              else s
            let s2 :=
              if status == "nack" then
                if b.nackReason == some "Unknown address." then
                  { s1 with events := s1.events ++ ["contact_stop"] }
                else s1
              else if status == "delivery_report" then
                if b.deliveryStatus.getD "success" == "failed" then s1
                else
                  { s1 with msgs := (updateFirstMsg s1.msgs (vumiMatch channel ext)
                      (fun m => if m.status == .wired then m.status_delivered else m)) }
              else s1
            .resp ⟨"Message Status Updated", 200⟩ s2

/-- The `action == 'receive'` branch of `VumiHandler.post`.  The guard
rejects only when all four of `timestamp`, `from_addr`, `content` and
`message_id` are absent (`not any(...)` in the source); a partially
missing payload raises a KeyError at the first absent field read. -/
def vumiReceiveAction (channel : Channel) (b : VumiBody)
    (parseDate : String → Option Nat) (s : Store) : HResult :=
  if b.timestamp.isNone && b.fromAddr.isNone && b.content.isNone &&
      b.messageId.isNone then
    .resp ⟨"Missing one of timestamp, from_addr, content or message_id, ignoring message", 400⟩ s
  else
    match b.timestamp with
    | none => .exn "KeyError: timestamp" s
    | some tsStr =>
      match parseDate tsStr with
      | none => .exn "ValueError: time data does not match format" s
      | some d =>
        match b.fromAddr with
        | none => .exn "KeyError: from_addr" s
        | some fromAddr =>
          match b.content with
          | none => .exn "KeyError: content" s
          | some content =>
            let st := if b.sessionEvent == some "close" then
                MsgStatus.interrupted
              else .pending
            let created := createIncoming s channel.id ("tel:" ++ fromAddr)
              content d st
            if st == .interrupted then
              .resp ⟨"Message Accepted: " ++ toString created.1.id, 200⟩ created.2
            else
              match b.messageId with
              | none => .exn "KeyError: message_id" created.2
              | some mid =>
                .resp ⟨"Message Accepted: " ++ toString created.1.id, 200⟩
                  { created.2 with msgs := setExternalId created.2.msgs created.1.id mid }

/-- `VumiHandler.post`: JSON parse, transport discrimination, channel
lookup, action dispatch. -/
def vumiPost (action uuid : String) (body : Option VumiBody)
    (parseDate : String → Option Nat) (s : Store) : HResult :=
  match body with
  | none => .resp ⟨"Invalid JSON", 400⟩ s
  | some b =>
    let ctype := if vumiIsUssd b then ChannelType.vumiUssd else .vumi
    match activeChannelLookup s.channels uuid ctype with
    | none => .resp ⟨"Channel not found for id: " ++ uuid, 404⟩ s
    | some channel =>
      if action == "event" then vumiEventAction channel b s
      else if action == "receive" then vumiReceiveAction channel b parseDate s
      else .resp ⟨"Not handled", 400⟩ s

/-- Python truthiness of an optional string parameter (`None` and the
empty string are falsy). -/
def truthy (o : Option String) : Bool :=
  match o with
  | none => false
  | some v => v != ""

/-- Python `s.partition(':')[2]`: everything after the first colon, the
empty string when there is none. -/
def partitionAfterColon (sIn : String) : String :=
  match strSplitOnChar ':' sIn with
  | [] => ""
  | [_] => ""
  | _ :: rest => String.intercalate ":" rest

/-- `TwimlAPIHandler.get_ringing_channel`:
`filter(address=to_number, channel_type=..., role__contains='A',
is_active=True).exclude(org=None).first()`. -/
def twimlRingingChannelLookup (channels : List Channel) (toNumber : String) :
    Option Channel :=
  (channels.filter (fun c =>
    c.address == toNumber && c.channelType == .twiml &&
    c.role.toList.contains 'A' && c.isActive && c.orgId.isSome)).head?

/-- The `action == 'callback'` branch of `TwimlAPIHandler.post`: message
lookup by internal id, the Twilio-account check, the signature check
(raising `ValidationError` on failure) and then the status transition
for `sent`, `delivered` or `failed`. -/
def twimlCallbackAction (smsIdParam smsStatus : Option String)
    (orgConnected validate : Bool) (s : Store) : HResult :=
  match smsIdParam with
  | none => .resp ⟨"No message found with id: None", 400⟩ s
  | some idStr =>
    match strToNat? idStr with
    | none => .exn "ValueError: invalid message id" s
    | some n =>
      match s.msgs.find? (fun m => m.id == n) with
      | none => .resp ⟨"No message found with id: " ++ idStr, 400⟩ s
      | some _ =>
        if !orgConnected then
          .resp ⟨"No Twilio account is connected", 400⟩ s
        else if !validate then
          .exn "ValidationError: Invalid request signature" s
        else
          let upd : Msg → Msg := fun m =>
            if smsStatus == some "sent" then m.status_sent
            else if smsStatus == some "delivered" then m.status_delivered
            else if smsStatus == some "failed" then m.fail
            else m
          .resp ⟨"", 200⟩
            { s with msgs := updateFirstMsg s.msgs (fun m => m.id == n) upd }

/-- The `action == 'received'` branch of `TwimlAPIHandler.post`: channel
lookup by uuid, the signature check (raising `ValidationError` on
failure), then one message per attached media item and one for a
non-empty body.  `downloadMedia` stands for `client.download_media`. -/
def twimlReceiveAction (uuid toNumberDisplay : String) (validate : Bool)
    (postBody postFrom : Option String) (mediaUrls : List String)
    (downloadMedia : String → String) (now : Nat) (s : Store) : HResult :=
  match activeChannelLookup s.channels uuid .twiml with
  | none =>
    .resp ⟨"No active channel found for number: " ++ toNumberDisplay, 400⟩ s
  | some channel =>
    if !validate then
      .exn "ValidationError: Invalid request signature" s
    else
      match postBody with
      | none => .exn "KeyError: Body" s
      | some body =>
        match postFrom with
        | none => .exn "KeyError: From" s
        | some fromTel =>
          let urn := "tel:" ++ fromTel
          let s1 := mediaUrls.foldl (fun acc mu =>
            (createIncoming acc channel.id urn
              (partitionAfterColon (downloadMedia mu)) now .pending).2) s
          if body != "" then
            .resp ⟨"", 201⟩ (createIncoming s1 channel.id urn body now .pending).2
          else
            .resp ⟨"", 201⟩ s1

/-- The action dispatch of `TwimlAPIHandler.post` (the part after the
voice-call branch): `callback` or `received` (the default). -/
def twimlActionDispatch (action uuid toNumberDisplay : String)
    (smsIdParam smsStatus postBody postFrom : Option String)
    (mediaUrls : List String) (downloadMedia : String → String)
    (validate orgConnected : Bool) (now : Nat) (s : Store) : HResult :=
  if action == "callback" then
    twimlCallbackAction smsIdParam smsStatus orgConnected validate s
  else if action == "received" then
    twimlReceiveAction uuid toNumberDisplay validate postBody postFrom
      mediaUrls downloadMedia now s
  else
    .resp ⟨"Not Handled, unknown action", 400⟩ s

/-- The body of `TwimlAPIHandler.post` once the destination number has
been normalized to `tn1`: the voice-call branch (which touches contacts,
IVR calls, flow runs and triggers through collaborators — recorded as
events — and never a message row, and falls through to the action
dispatch when the signature is invalid), then the action dispatch.
`validate` stands for the Twilio `RequestValidator` outcome on this
request, `flowFound` for `Trigger.find_flow_for_inbound_call` returning
a flow. -/
def twimlPostNormalized (action uuid : String)
    (callSid direction callStatus : Option String) (tn1 : String)
    (smsIdParam smsStatus : Option String)
    (postBody postFrom : Option String) (mediaUrls : List String)
    (downloadMedia : String → String) (validate orgConnected flowFound : Bool)
    (now : Nat) (s : Store) : HResult :=
  if tn1 != "" && truthy callSid && direction == some "inbound" &&
      callStatus == some "ringing" then
    match twimlRingingChannelLookup s.channels tn1 with
    | none => .resp ⟨"twiml no-channel hangup response", 200⟩ s
    | some _ =>
      if validate then
        if flowFound then
          .resp ⟨"twiml flow call response", 200⟩
            { s with events := s.events ++
                ["contact_get_or_create", "ivr_call_created", "flow_run_created"] }
        else
          .resp ⟨"twiml hangup response", 200⟩
            { s with events := s.events ++
                ["contact_get_or_create", "catch_triggers missed_call"] }
      else
        twimlActionDispatch action uuid tn1 smsIdParam smsStatus postBody
          postFrom mediaUrls downloadMedia validate orgConnected now s
  else
    twimlActionDispatch action uuid tn1 smsIdParam smsStatus postBody
      postFrom mediaUrls downloadMedia validate orgConnected now s

/-- `TwimlAPIHandler.post`.  A missing `To` parameter raises before the
normalization `not to_number.startswith('+') and to_country`; `normNum`
stands for `URN.normalize_number` with the country hint. -/
def twimlPost (action uuid : String)
    (callSid direction callStatus toNumber toCountry : Option String)
    (normNum : String → String) (smsIdParam smsStatus : Option String)
    (postBody postFrom : Option String) (mediaUrls : List String)
    (downloadMedia : String → String) (validate orgConnected flowFound : Bool)
    (now : Nat) (s : Store) : HResult :=
  match toNumber with
  | none => .exn "AttributeError: NoneType has no attribute startswith" s
  | some tn =>
    twimlPostNormalized action uuid callSid direction callStatus
      (if !startsWithPlus tn && truthy toCountry then normNum tn else tn)
      smsIdParam smsStatus postBody postFrom mediaUrls downloadMedia validate
      orgConnected flowFound now s

/-- `MageHandler.post`: the `Authorization: Token <secret>` header is
checked against `settings.MAGE_AUTH_TOKEN` before anything else; then
`handle_message` enqueues handling for an existing message and fires the
SMS-received webhook, and `follow_notification` fires follow triggers
(JSON response bodies are rendered here as `error: ...` text). -/
def magePost (action authHeader mageToken : String)
    (newContactRaw messageIdRaw channelIdRaw contactUrnIdRaw : Option String)
    (s : Store) : HResult :=
  match strSplitOnChar ' ' authHeader with
  | [tokWord, tok] =>
    if tokWord != "Token" || tok != mageToken then
      .resp ⟨"error: Incorrect authentication token", 401⟩ s
    else
      let newContact := strToLower (newContactRaw.getD "") == "true" ||
                        strToLower (newContactRaw.getD "") == "1"
      if action == "handle_message" then
        match strToNat? (messageIdRaw.getD "") with
        | none => .resp ⟨"error: Invalid message_id", 400⟩ s
        | some msgId =>
          match s.msgs.find? (fun m => m.id == msgId) with
          | none => .exn "Msg.DoesNotExist" s
          | some m =>
            .resp ⟨"error: null", 200⟩
              { s with events := s.events ++
                  ["push_task msg_event " ++ toString m.id ++
                     (if newContact then " new_contact" else ""),
                   "webhook sms_received " ++ toString m.id] }
      else if action == "follow_notification" then
        match strToNat? (channelIdRaw.getD ""), strToNat? (contactUrnIdRaw.getD "") with
        | some chId, some urnId =>
          .resp ⟨"error: null", 200⟩
            { s with events := s.events ++
                ["fire_follow_triggers " ++ toString chId ++ " " ++ toString urnId] }
        | _, _ => .resp ⟨"error: Invalid channel or contact URN id", 400⟩ s
      else
        .resp ⟨"error: null", 200⟩ s
  | _ => .resp ⟨"error: Incorrect authentication token", 401⟩ s

/-- `InfobipHandler.get` (the receive action): required parameters
first, then channel lookup; a delivery report over GET is a 401; the
receiver must equal the channel address with a prepended `+`, and a
mismatch is answered with the same 404 channel-not-found response. -/
def infobipGet (action uuid : String) (sender text receiver : Option String)
    (now : Nat) (s : Store) : HResult :=
  match sender, text, receiver with
  | some snd, some txt, some recv =>
    match activeChannelLookup s.channels uuid .infobip with
    | none => .resp ⟨"Channel with uuid: " ++ uuid ++ " not found.", 404⟩ s
    | some channel =>
      if action == "delivered" then
        .resp ⟨"Illegal method, delivery reports must be POSTs", 401⟩ s
      else if channel.address != "+" ++ recv then
        .resp ⟨"Channel with uuid: " ++ uuid ++ " not found.", 404⟩ s
      else
        let created := createIncoming s channel.id ("tel:" ++ snd) txt now .pending
        .resp ⟨"SMS Accepted: " ++ toString created.1.id, 200⟩ created.2
  | _, _, _ =>
    .resp ⟨"Missing parameters, must have 'sender', 'text' and 'receiver'", 400⟩ s

/-- `BlackmynaHandler.get`: the status action updates the first message
matching the channel and external id (8 sent, 1 delivered, 2 or 16
failed); the receive action requires `to`, `from` and `text`, and the
`to` number must equal the channel address exactly. -/
def blackmynaGet (action uuid : String)
    (msgIdParam statusRaw toNumber fromNumber message : Option String)
    (now : Nat) (s : Store) : HResult :=
  match activeChannelLookup s.channels uuid .blackmyna with
  | none => .resp ⟨"Channel with uuid: " ++ uuid ++ " not found.", 400⟩ s
  | some channel =>
    if action == "status" then
      match (match statusRaw with | none => some 0 | some r => strToNat? r) with
      | none => .exn "ValueError: invalid status" s
      | some st =>
        let p := fun (m : Msg) =>
          m.channelId == channel.id && m.externalId == msgIdParam
        match s.msgs.find? p with
        | none =>
          .resp ⟨"No SMS message with id: " ++ msgIdParam.getD "None", 400⟩ s
        | some _ =>
          let f := fun (m : Msg) =>
            if st == 8 then m.status_sent
            else if st == 1 then m.status_delivered
            else if st == 2 || st == 16 then m.fail
            else m
          .resp ⟨"", 200⟩ { s with msgs := updateFirstMsg s.msgs p f }
    else if action == "receive" then
      match toNumber, fromNumber, message with
      | some toN, some fromN, some txt =>
        if channel.address != toN then
          .resp ⟨"Invalid to number [" ++ toN ++ "], expecting [" ++
                 channel.address ++ "]", 400⟩ s
        else
          let created := createIncoming s channel.id ("tel:" ++ fromN) txt now .pending
          .resp ⟨"", 200⟩ created.2
      | _, _, _ => .resp ⟨"Missing to, from or text parameters", 400⟩ s
    else
      .resp ⟨"Unrecognized action: " ++ action, 400⟩ s

/-- The message creation shared by the High Connection receive action
once the reception date has been determined (JSON response bodies are
rendered as plain text here). -/
def highConnectionCreate (channel : Channel)
    (toNumber fromNumber message : Option String) (received : Nat)
    (s : Store) : HResult :=
  match toNumber, fromNumber, message with
  | some _, some fromN, some txt =>
    let created := createIncoming s channel.id ("tel:" ++ fromN) txt received .pending
    .resp ⟨"msg: Msg received, id: " ++ toString created.1.id, 200⟩ created.2
  | _, _, _ => .resp ⟨"Missing TO, FROM or MESSAGE parameters", 400⟩ s

/-- `HighConnectionHandler.get`: the status action updates the first
message matching the channel and internal id (4 sent, 6 delivered, 2 or
11–16 failed); in the receive action the `RECEPTION_DATE` is parsed
before the required-parameter check — a missing date falls back to the
receipt time `now`, an unparsable one raises out of `strptime`. -/
def highConnectionGet (action uuid : String)
    (retId statusRaw toNumber fromNumber message receptionDate : Option String)
    (parseDate : String → Option Nat) (now : Nat) (s : Store) : HResult :=
  match activeChannelLookup s.channels uuid .highConnection with
  | none => .resp ⟨"Channel with uuid: " ++ uuid ++ " not found.", 400⟩ s
  | some channel =>
    if action == "status" then
      match (match statusRaw with | none => some 0 | some r => strToNat? r) with
      | none => .exn "ValueError: invalid status" s
      | some st =>
        match retId with
        | none => .resp ⟨"No SMS message with id: None", 400⟩ s
        | some idStr =>
          match strToNat? idStr with
          | none => .exn "ValueError: invalid message id" s
          | some n =>
            let p := fun (m : Msg) => m.channelId == channel.id && m.id == n
            match s.msgs.find? p with
            | none => .resp ⟨"No SMS message with id: " ++ idStr, 400⟩ s
            | some _ =>
              let f := fun (m : Msg) =>
                if st == 4 then m.status_sent
                else if st == 6 then m.status_delivered
                else if st == 2 || (11 ≤ st && st ≤ 16) then m.fail
                else m
              .resp ⟨"msg: Status Updated", 200⟩
                { s with msgs := updateFirstMsg s.msgs p f }
    else if action == "receive" then
      match receptionDate with
      | none => highConnectionCreate channel toNumber fromNumber message now s
      | some d =>
        match parseDate d with
        | none => .exn "ValueError: time data does not match format" s
        | some parsed =>
          highConnectionCreate channel toNumber fromNumber message parsed s
    else
      .resp ⟨"Unrecognized action: " ++ action, 400⟩ s

/-- `ZenviaHandler.post`: the status action updates the first message
matching the channel and internal id (120 delivered, 111 sent, anything
else failed); the receive action parses the Brazilian-format date with
`strptime`, which raises on an unparsable value. -/
def zenviaPost (action uuid : String)
    (statusRaw smsIdRaw date fromTel msgText : Option String)
    (parseDate : String → Option Nat) (s : Store) : HResult :=
  match activeChannelLookup s.channels uuid .zenvia with
  | none => .resp ⟨"Channel with uuid: " ++ uuid ++ " not found.", 404⟩ s
  | some channel =>
    if action == "status" then
      match statusRaw, smsIdRaw with
      | some stStr, some idStr =>
        match strToNat? stStr with
        | none => .exn "ValueError: invalid status" s
        | some st =>
          match strToNat? idStr with
          | none => .exn "ValueError: invalid message id" s
          | some n =>
            let p := fun (m : Msg) => m.channelId == channel.id && m.id == n
            match s.msgs.find? p with
            | none => .resp ⟨"No SMS message with id: " ++ idStr, 404⟩ s
            | some _ =>
              let f := fun (m : Msg) =>
                if st == 120 then m.status_delivered
                else if st == 111 then m.status_sent
                else m.fail
              .resp ⟨"SMS Status Updated", 200⟩
                { s with msgs := updateFirstMsg s.msgs p f }
      | _, _ =>
        .resp ⟨"Missing parameters, requires 'status' and 'id'", 400⟩ s
    else if action == "receive" then
      match date, fromTel, msgText with
      | some d, some fromT, some txt =>
        match parseDate d with
        | none => .exn "ValueError: time data does not match format" s
        | some parsed =>
          let created := createIncoming s channel.id ("tel:" ++ fromT) txt parsed .pending
          .resp ⟨"SMS Accepted: " ++ toString created.1.id, 200⟩ created.2
      | _, _, _ =>
        .resp ⟨"Missing parameters, requires 'from', 'date' and 'msg'", 400⟩ s
    else
      .resp ⟨"Not handled", 400⟩ s

/-- One Facebook message attachment.  `payload` is `none` when the
`payload` key is absent (reading it raises), `some none` when it is null
or carries no `url`, `some (some u)` when it carries url `u`. -/
structure FbAttachment where
  payload : Option (Option String)
  url : Option String
  title : Option String
  deriving DecidableEq, Repr

/-- The `message` part of a Facebook messaging envelope. -/
structure FbMessage where
  isEcho : Bool
  text : Option String
  attachments : Option (List FbAttachment)
  mid : Option String
  deriving DecidableEq, Repr

/-- One entry of a Facebook `messaging` list.  `postback` holds
`envelope['postback']['payload']`; `deliveryMids` is present exactly
when the envelope has a `delivery` object with a `mids` list. -/
structure FbEnvelope where
  message : Option FbMessage
  postback : Option String
  recipientId : Option String
  senderId : Option String
  timestamp : Option Nat
  deliveryMids : Option (List String)
  deriving DecidableEq, Repr

structure FbEntry where
  messaging : Option (List FbEnvelope)
  deriving DecidableEq, Repr

structure FbBody where
  entry : Option (List FbEntry)
  deriving DecidableEq, Repr

/-- The attachment URL collection of `FacebookHandler.post`: the payload
url when present, otherwise the attachment url (preceded by its title
when one exists); `none` models the KeyError on a missing `payload`
key. -/
def fbAttachmentUrls : List FbAttachment → Option (List String)
  | [] => some []
  | a :: rest =>
    match a.payload with
    | none => none
    | some p =>
      let here :=
        match p with
        | some u => [u]
        | none =>
          match a.url with
          | some u =>
            if u != "" then
              (match a.title with | some t => [t, u] | none => [u])
            else []
          | none => []
      match fbAttachmentUrls rest with
      | none => none
      | some us => some (here ++ us)

/-- Intermediate state of the Facebook envelope loop: either keep going
with the status list and store so far, or return early. -/
inductive FbStep where
  | cont (status : List String) (s : Store)
  | halt (res : HResult)
  deriving Repr

/-- One iteration of the envelope loop in `FacebookHandler.post`: echo
messages are skipped, a recipient id different from the channel address
returns 200 for the whole request, content or a postback resolves the
contact (`contactKnown` stands for `Contact.from_urn` finding one),
content creates an inbound message carrying the envelope timestamp and
the message `mid` as external id, a `get_started` postback fires the
new-conversation trigger, and a delivery report marks each listed
outgoing message DELIVERED. -/
def fbProcessEnvelope (channel : Channel) (contactKnown : String → Bool)
    (env : FbEnvelope) (status : List String) (s : Store) : FbStep :=
  if env.message.isSome || env.postback.isSome then
    if (match env.message with | some msg => msg.isEcho | none => false) then
      .cont (status ++ ["Echo Ignored"]) s
    else
      match env.recipientId with
      | none => .halt (.exn "KeyError: recipient" s)
      | some recipId =>
        if recipId != channel.address then
          .halt (.resp ⟨"Msg Ignored for recipient id: " ++ channel.address, 200⟩ s)
        else
          let contentRes : Option (Option String) :=
            match env.message with
            | some msg =>
              match msg.text with
              | some t => some (some t)
              | none =>
                match msg.attachments with
                | some atts =>
                  match fbAttachmentUrls atts with
                  | none => none
                  | some urls => some (some (String.intercalate "\n" urls))
                | none => some none
            | none => some none
          match contentRes with
          | none => .halt (.exn "KeyError: payload" s)
          | some content =>
            let pb := match env.message with | some _ => none | none => env.postback
            if truthy content || truthy pb then
              match env.senderId with
              | none => .halt (.exn "KeyError: sender" s)
              | some senderId =>
                let urn := "facebook:" ++ senderId
                let s1 :=
                  if contactKnown urn then s
                  else { s with events := s.events ++ ["contact_get_or_create " ++ urn] }
                if truthy content then
                  match env.timestamp with
                  | none => .halt (.exn "KeyError: timestamp" s1)
                  | some ts =>
                    let created := createIncoming s1 channel.id urn (content.getD "") ts .pending
                    match (match env.message with | some msg => msg.mid | none => none) with
                    | none => .halt (.exn "KeyError: mid" created.2)
                    | some mid =>
                      .cont (status ++ ["Msg " ++ toString created.1.id ++ " accepted."])
                        { created.2 with msgs := setExternalId created.2.msgs created.1.id mid }
                else if pb == some "get_started" then
                  .cont (status ++ ["Postback handled."])
                    { s1 with events := s1.events ++ ["catch_triggers new_conversation"] }
                else
                  .cont (status ++ ["Ignored, content unavailable"]) s1
            else
              .cont (status ++ ["Ignored, content unavailable"]) s
  else
    match env.deliveryMids with
    | some mids =>
      let step := fun (acc : List String × Store) (ext : String) =>
        let p := fun (m : Msg) =>
          m.channelId == channel.id && m.direction == .outgoing &&
          m.externalId == some ext
        match acc.2.msgs.find? p with
        | none => acc
        | some m =>
          (acc.1 ++ ["Msg " ++ toString m.id ++ " updated."],
           { acc.2 with msgs := updateFirstMsg acc.2.msgs p Msg.status_delivered })
      let res := mids.foldl step (status, s)
      .cont res.1 res.2
    | none => .cont (status ++ ["Messaging entry Ignored"]) s

/-- The envelope loop of `FacebookHandler.post`. -/
def fbProcessEnvelopes (channel : Channel) (contactKnown : String → Bool) :
    List FbEnvelope → List String → Store → FbStep
  | [], status, s => .cont status s
  | env :: rest, status, s =>
    match fbProcessEnvelope channel contactKnown env status s with
    | .halt r => .halt r
    | .cont st1 s1 => fbProcessEnvelopes channel contactKnown rest st1 s1

/-- `FacebookHandler.post`: channel lookup, JSON parse, the `entry`
array; the first entry with a `messaging` list is processed and answered
(JSON response bodies are rendered as `status: ...` text). -/
def facebookPost (uuid : String) (body : Option FbBody)
    (contactKnown : String → Bool) (s : Store) : HResult :=
  match activeChannelLookup s.channels uuid .facebook with
  | none => .resp ⟨"Channel not found for id: " ++ uuid, 400⟩ s
  | some channel =>
    match body with
    | none => .resp ⟨"Invalid JSON in POST body", 400⟩ s
    | some b =>
      match b.entry with
      | none => .resp ⟨"Missing entry array", 400⟩ s
      | some entries =>
        match entries.findSome? (fun e => e.messaging) with
        | none => .resp ⟨"status: Ignored, unknown msg", 200⟩ s
        | some envs =>
          match fbProcessEnvelopes channel contactKnown envs [] s with
          | .halt r => r
          | .cont status s1 =>
            .resp ⟨"status: " ++ String.intercalate "; " status, 200⟩ s1

/-! ## Sample data for witnesses and counterexamples -/

/-- A configured Clickatell channel. -/
def chClickatell : Channel :=
  { id := 1, uuid := "u1", channelType := .clickatell, address := "+100",
    role := "SR", isActive := true, orgId := some 7, configApiId := some "api9" }

def storeClickatell : Store :=
  { channels := [chClickatell], msgs := [], nextId := 10, events := [] }

/-- An active Plivo channel whose organization is null. -/
def chPlivoOrgless : Channel :=
  { id := 2, uuid := "u2", channelType := .plivo, address := "+200",
    role := "SR", isActive := true, orgId := none, configApiId := none }

def storePlivoOrgless : Store :=
  { channels := [chPlivoOrgless], msgs := [], nextId := 5, events := [] }

/-- A configured Kannel channel. -/
def chKannel : Channel :=
  { id := 3, uuid := "u3", channelType := .kannel, address := "+400",
    role := "SR", isActive := true, orgId := some 1, configApiId := none }

/-- An outgoing message in the WIRED state on the Kannel channel. -/
def msgWired : Msg :=
  { id := 21, channelId := 3, direction := .outgoing, status := .wired,
    externalId := some "x21", urn := "tel:+500", text := "hi", date := 0,
    broadcast := none }

/-- An outgoing message already DELIVERED on the Kannel channel. -/
def msgDelivered : Msg :=
  { id := 22, channelId := 3, direction := .outgoing, status := .delivered,
    externalId := some "x22", urn := "tel:+500", text := "hi2", date := 0,
    broadcast := none }

def storeKannel : Store :=
  { channels := [chKannel], msgs := [msgWired, msgDelivered], nextId := 30,
    events := [] }

/-- A configured Infobip channel. -/
def chInfobip : Channel :=
  { id := 4, uuid := "u4", channelType := .infobip, address := "+600",
    role := "SR", isActive := true, orgId := some 2, configApiId := none }

def storeInfobip : Store :=
  { channels := [chInfobip], msgs := [], nextId := 40, events := [] }

def storeNoChannels : Store :=
  { channels := [], msgs := [], nextId := 40, events := [] }

/-- A configured Vumi channel and store with one matching message. -/
def chVumi : Channel :=
  { id := 6, uuid := "u6", channelType := .vumi, address := "+800",
    role := "SR", isActive := true, orgId := some 3, configApiId := none }

def msgVumiWired : Msg :=
  { id := 25, channelId := 6, direction := .outgoing, status := .wired,
    externalId := some "ext25", urn := "tel:+900", text := "yo", date := 0,
    broadcast := none }

def storeVumi : Store :=
  { channels := [chVumi], msgs := [msgVumiWired], nextId := 26, events := [] }

def vumiBodyUnknown : VumiBody :=
  { transportName := some "sms", transportType := some "sms",
    eventType := some "077", userMessageId := some "ext25",
    nackReason := none, deliveryStatus := none, timestamp := none,
    fromAddr := none, content := none, messageId := none,
    sessionEvent := none }

/-- The message record `Msg.create_incoming` inserts, spelled out for
the timestamp statements below. -/
def freshIncoming (i chId : Nat) (urn txt : String) (d : Nat) : Msg :=
  { id := i, channelId := chId, direction := .incoming, status := .pending,
    externalId := none, urn := urn, text := txt, date := d, broadcast := none }

/-- A configured High Connection channel. -/
def chHighConn : Channel :=
  { id := 8, uuid := "u8", channelType := .highConnection, address := "+123",
    role := "SR", isActive := true, orgId := some 4, configApiId := none }

def storeHighConn : Store :=
  { channels := [chHighConn], msgs := [], nextId := 50, events := [] }

/-- A configured TwiML channel and store with a pending outbound
message, used to witness the gate on a well-formed payload. -/
def chTwiml : Channel :=
  { id := 9, uuid := "u9", channelType := .twiml, address := "+777",
    role := "SR", isActive := true, orgId := some 5, configApiId := none }

def msgTwimlWired : Msg :=
  { id := 61, channelId := 9, direction := .outgoing, status := .wired,
    externalId := none, urn := "tel:+778", text := "out", date := 0,
    broadcast := none }

def storeTwiml : Store :=
  { channels := [chTwiml], msgs := [msgTwimlWired], nextId := 62, events := [] }

/-- A configured Viber channel with a delivered-trackable outgoing
message. -/
def chViber : Channel :=
  { id := 11, uuid := "u11", channelType := .viber, address := "+900",
    role := "SR", isActive := true, orgId := some 6, configApiId := none }

def msgViberOut : Msg :=
  { id := 71, channelId := 11, direction := .outgoing, status := .sent,
    externalId := some "4727", urn := "tel:+901", text := "v", date := 0,
    broadcast := none }

def storeViber : Store :=
  { channels := [chViber], msgs := [msgViberOut], nextId := 72, events := [] }

def viberStatusBody : ViberBody :=
  { messageToken := some 4727, phoneNumber := none, time := none,
    message := none }

/-! ## C10: get_param reads the query string before the form body -/

/-- C10: for every parameter read through `get_param`, a name bound in
the query string is answered from the query string; the form-body value
is used only when the name is absent from the query string, and the
supplied default only when it is absent from both. -/
theorem C10_get_param_prefers_query (g p : List (String × String))
    (name v : String) (deflt : Option String) :
    (qdictGet g name = some v → get_param g p name deflt = some v) ∧
    (qdictGet g name = none → qdictGet p name = some v →
      get_param g p name deflt = some v) ∧
    (qdictGet g name = none → qdictGet p name = none →
      get_param g p name deflt = deflt) := by
  refine ⟨?_, ?_, ?_⟩
  · intro h; simp [get_param, h]
  · intro h1 h2; simp [get_param, h1, h2]
  · intro h1 h2; simp [get_param, h1, h2]

/-- Witness for C10 at a concrete query string and form body. -/
theorem C10_witness :
    get_param [("a", "1")] [("a", "2"), ("b", "3")] "a" none = some "1" ∧
    get_param [("a", "1")] [("a", "2"), ("b", "3")] "b" none = some "3" ∧
    get_param [("a", "1")] [("a", "2"), ("b", "3")] "c" (some "d") = some "d" :=
  ⟨(C10_get_param_prefers_query [("a", "1")] [("a", "2"), ("b", "3")] "a" "1" none).1 rfl,
   (C10_get_param_prefers_query [("a", "1")] [("a", "2"), ("b", "3")] "b" "3" none).2.1 rfl rfl,
   (C10_get_param_prefers_query [("a", "1")] [("a", "2"), ("b", "3")] "c" "3" (some "d")).2.2 rfl rfl⟩

/-! ## C9: the Clickatell API-id check runs only when api_id is present -/

/-- C9: the Clickatell handler checks the API id only when the request
carries an `api_id` parameter: with `api_id` absent the handler proceeds
to the action dispatch as if authenticated, with `api_id` present and
equal to the configured id it also proceeds, and with `api_id` present
and different it rejects with a 400 and leaves the store unchanged. -/
theorem C9_clickatell_api_id_check
    (action uuid : String) (apiId : Option String)
    (smsId statusCode smsFrom smsText moMsgId smsTimestamp : Option String)
    (charset : String) (recode : String → String → String)
    (parseDate : String → Option Nat) (s : Store) (channel : Channel)
    (hch : activeChannelLookup s.channels uuid .clickatell = some channel) :
    (apiId = none →
      clickatellPost action uuid apiId smsId statusCode smsFrom smsText moMsgId
          smsTimestamp charset recode parseDate s =
        clickatellAction action channel smsId statusCode smsFrom smsText moMsgId
          smsTimestamp charset recode parseDate s) ∧
    (∀ v c, apiId = some v → channel.configApiId = some c → c ≠ v →
      clickatellPost action uuid apiId smsId statusCode smsFrom smsText moMsgId
          smsTimestamp charset recode parseDate s =
        .resp ⟨"Invalid API id for message delivery: " ++ v, 400⟩ s) ∧
    (∀ v, apiId = some v → channel.configApiId = some v →
      clickatellPost action uuid apiId smsId statusCode smsFrom smsText moMsgId
          smsTimestamp charset recode parseDate s =
        clickatellAction action channel smsId statusCode smsFrom smsText moMsgId
          smsTimestamp charset recode parseDate s) := by
  refine ⟨?_, ?_, ?_⟩
  · intro h; subst h; simp [clickatellPost, hch]
  · intro v c hv hc hne; subst hv
    simp only [clickatellPost, hch]
    rw [hc]
    simp [bne_iff_ne, hne]
  · intro v hv hc; subst hv
    simp only [clickatellPost, hch]
    rw [hc]
    simp

/-- Witness for C9: a request with a wrong `api_id` is rejected with a
400 and the store is unchanged; one without `api_id` is dispatched. -/
theorem C9_witness :
    clickatellPost "receive" "u1" (some "bad") none none none none none none
        "utf-8" (fun _ t => t) (fun _ => none) storeClickatell =
      .resp ⟨"Invalid API id for message delivery: bad", 400⟩ storeClickatell ∧
    clickatellPost "other" "u1" none none none none none none none
        "utf-8" (fun _ t => t) (fun _ => none) storeClickatell =
      clickatellAction "other" chClickatell none none none none none none
        "utf-8" (fun _ t => t) (fun _ => none) storeClickatell :=
  ⟨(C9_clickatell_api_id_check "receive" "u1" (some "bad") none none none none
      none none "utf-8" (fun _ t => t) (fun _ => none) storeClickatell
      chClickatell rfl).2.1 "bad" "api9" rfl rfl (by decide),
   (C9_clickatell_api_id_check "other" "u1" none none none none none
      none none "utf-8" (fun _ t => t) (fun _ => none) storeClickatell
      chClickatell rfl).1 rfl⟩

/-! ## C4: channel resolution invariants -/

/-- A member of the first position of a filtered list satisfies the
filter predicate. -/
theorem head?_filter_sat {α : Type} (p : α → Bool) (l : List α) (a : α)
    (h : (l.filter p).head? = some a) : p a = true := by
  cases hf : l.filter p with
  | nil => rw [hf] at h; cases h
  | cons b rest =>
    rw [hf] at h
    have hab : a = b := by
      simpa using h.symm
    subst hab
    have : a ∈ l.filter p := by rw [hf]; exact List.mem_cons_self a rest
    exact (List.mem_filter.mp this).2

/-- C4 (amended): the shared channel lookup and the Twiml ringing lookup
only ever resolve an active channel of the requested provider type whose
organization is non-null; the Plivo lookup guarantees activity and
provider type but not a non-null organization. -/
theorem C4_channel_lookup_invariant (channels : List Channel)
    (uuid toNumber : String) (t : ChannelType) (c : Channel) :
    (activeChannelLookup channels uuid t = some c →
      c.isActive = true ∧ c.orgId ≠ none ∧ c.channelType = t ∧ c.uuid = uuid) ∧
    (twimlRingingChannelLookup channels toNumber = some c →
      c.isActive = true ∧ c.orgId ≠ none ∧ c.channelType = .twiml) ∧
    (plivoChannelLookup channels uuid = some c →
      c.isActive = true ∧ c.channelType = .plivo ∧ c.uuid = uuid) := by
  refine ⟨?_, ?_, ?_⟩
  · intro h
    have hp := head?_filter_sat _ channels c h
    simp only [Bool.and_eq_true, beq_iff_eq, Option.isSome_iff_exists] at hp
    obtain ⟨⟨⟨hu, ha⟩, ht⟩, o, ho⟩ := hp
    exact ⟨ha, by simp [ho], ht, hu⟩
  · intro h
    have hp := head?_filter_sat _ channels c h
    simp only [Bool.and_eq_true, beq_iff_eq, Option.isSome_iff_exists] at hp
    obtain ⟨⟨⟨⟨_, ht⟩, _⟩, ha⟩, o, ho⟩ := hp
    exact ⟨ha, by simp [ho], ht⟩
  · intro h
    have hp := head?_filter_sat _ channels c h
    simp only [Bool.and_eq_true, beq_iff_eq] at hp
    exact ⟨hp.1.1, hp.2, hp.1.2⟩

/-- Counterexample for C4 as stated: the Plivo channel lookup omits the
`.exclude(org=None)` filter, so an active Plivo channel with a null
organization is resolved, and the Plivo receive action then dispatches
to it and even creates a message on it. -/
theorem C4_counterexample :
    plivoChannelLookup storePlivoOrgless.channels "u2" = some chPlivoOrgless ∧
    chPlivoOrgless.orgId = none ∧
    (plivoPost "receive" "u2" (some "+300") (some "200") (some "x9") none none
        (some "hi") 77 storePlivoOrgless).store.msgs ≠ storePlivoOrgless.msgs := by
  refine ⟨rfl, rfl, ?_⟩
  decide

/-- Witness for C4 (amended) at the concrete Kannel and Plivo stores. -/
theorem C4_witness :
    (chKannel.isActive = true ∧ chKannel.orgId ≠ none ∧
      chKannel.channelType = .kannel ∧ chKannel.uuid = "u3") ∧
    (chPlivoOrgless.isActive = true ∧ chPlivoOrgless.channelType = .plivo ∧
      chPlivoOrgless.uuid = "u2") :=
  ⟨(C4_channel_lookup_invariant storeKannel.channels "u3" "+400" .kannel
      chKannel).1 rfl,
   (C4_channel_lookup_invariant storePlivoOrgless.channels "u2" "+200" .kannel
      chPlivoOrgless).2.2 rfl⟩

/-! ## C7: destination-address matching -/

/-- Counterexample for C7 as stated: in the Infobip handler a receiver
mismatch is answered with exactly the channel-not-found response (same
body, same 404 status), so the mismatch is not distinct from
channel-not-found; no message is created either way. -/
theorem C7_counterexample :
    (infobipGet "received" "u4" (some "700") (some "hi") (some "999") 3
        storeInfobip).response =
      (infobipGet "received" "u4" (some "700") (some "hi") (some "999") 3
        storeNoChannels).response ∧
    infobipGet "received" "u4" (some "700") (some "hi") (some "999") 3
        storeInfobip =
      .resp ⟨"Channel with uuid: u4 not found.", 404⟩ storeInfobip := by
  exact ⟨by decide, by decide⟩

/-- C7 (amended): the destination address carried by an inbound payload
must equal the channel's configured address — for Infobip after
prepending `+` to the receiver, for Blackmyna and Facebook by exact
comparison — and no message is created on a mismatch; the mismatch
response is provider-specific rather than uniformly distinct: Blackmyna
answers a distinct 400, Infobip reuses its 404 channel-not-found
response, and Facebook answers 200 and ignores the message. -/
theorem C7_address_match (uuid : String) (s : Store) (now : Nat) :
    (∀ snd txt recv channel,
      activeChannelLookup s.channels uuid .infobip = some channel →
      channel.address ≠ "+" ++ recv →
      infobipGet "received" uuid (some snd) (some txt) (some recv) now s =
        .resp ⟨"Channel with uuid: " ++ uuid ++ " not found.", 404⟩ s) ∧
    (∀ toN fromN txt msgIdParam statusRaw channel,
      activeChannelLookup s.channels uuid .blackmyna = some channel →
      channel.address ≠ toN →
      blackmynaGet "receive" uuid msgIdParam statusRaw (some toN) (some fromN)
          (some txt) now s =
        .resp ⟨"Invalid to number [" ++ toN ++ "], expecting [" ++
               channel.address ++ "]", 400⟩ s) ∧
    (∀ env rid (fbMsg : FbMessage) contactKnown channel,
      activeChannelLookup s.channels uuid .facebook = some channel →
      env.message = some fbMsg → fbMsg.isEcho = false →
      env.recipientId = some rid → rid ≠ channel.address →
      facebookPost uuid (some ⟨some [⟨some [env]⟩]⟩) contactKnown s =
        .resp ⟨"Msg Ignored for recipient id: " ++ channel.address, 200⟩ s) := by
  refine ⟨?_, ?_, ?_⟩
  · intro snd txt recv channel hch hne
    simp only [infobipGet, hch]
    rw [if_neg (by simp), if_pos (by simpa [bne_iff_ne] using hne)]
  · intro toN fromN txt msgIdParam statusRaw channel hch hne
    simp only [blackmynaGet, hch]
    rw [if_neg (by simp), if_pos (by simp)]
    rw [if_pos (by simpa [bne_iff_ne] using hne)]
  · intro env rid fbMsg contactKnown channel hch hmsg hecho hrid hne
    simp only [facebookPost, hch, List.findSome?]
    simp only [fbProcessEnvelopes, fbProcessEnvelope, hmsg, hecho, hrid]
    simp [bne_iff_ne, hne]

/-- Witness for C7 (amended) at concrete mismatching payloads. -/
theorem C7_witness :
    infobipGet "received" "u4" (some "700") (some "hi") (some "999") 3
        storeInfobip =
      .resp ⟨"Channel with uuid: u4 not found.", 404⟩ storeInfobip :=
  (C7_address_match "u4" storeInfobip 3).1 "700" "hi" "999" chInfobip rfl
    (by decide)

theorem kannelStatusAction_unrec_store (channel : Channel) (smsId : Option String)
    (code : String) (s : Store) (hcode : kannelStatusChoices code = none) :
    (kannelStatusAction channel smsId (some code) s).store = s := by
  unfold kannelStatusAction
  cases smsId with
  | none => rfl
  | some idStr =>
    simp only [Option.isNone_some, Bool.and_false, Bool.false_eq_true, if_false]
    cases h : strToNat? idStr with
    | none => rfl
    | some n =>
      by_cases he : (s.msgs.filter (fun m => m.channelId == channel.id && m.id == n)).isEmpty
      · simp [he, HResult.store]
      · simp [he, Option.bind, hcode, HResult.store]

theorem kannelStatusAction_unrec_resp (channel : Channel) (idStr code : String)
    (n : Nat) (s : Store) (hcode : kannelStatusChoices code = none)
    (hn : strToNat? idStr = some n)
    (hne : (s.msgs.filter (fun m => m.channelId == channel.id && m.id == n)).isEmpty = false) :
    kannelStatusAction channel (some idStr) (some code) s =
      .resp ⟨"Unrecognized status code: '" ++ code ++ "', ignoring message.", 401⟩ s := by
  unfold kannelStatusAction
  simp only [Option.isNone_some, Bool.and_false, Bool.false_eq_true, if_false]
  simp [hn, hne, Option.bind, hcode]

theorem vumiEventAction_unknown_store (channel : Channel) (b : VumiBody)
    (et : String) (s : Store) (het : b.eventType = some et)
    (hunk : ¬(et = "ack" ∨ et = "nack" ∨ et = "delivery_report")) :
    (vumiEventAction channel b s).store = s := by
  unfold vumiEventAction
  rw [het]
  simp only [Option.isNone_some, Bool.false_and, Bool.false_eq_true, if_false]
  push_neg at hunk
  obtain ⟨h1, h2, h3⟩ := hunk
  cases hu : b.userMessageId with
  | none => rfl
  | some ext =>
    by_cases he : (s.msgs.filter (vumiMatch channel ext)).isEmpty
    · simp [he, HResult.store]
    · simp [he, h1, h2, h3, HResult.store]

theorem vumiEventAction_unknown_resp (channel : Channel) (b : VumiBody)
    (et ext : String) (s : Store) (het : b.eventType = some et)
    (hu : b.userMessageId = some ext)
    (hunk : ¬(et = "ack" ∨ et = "nack" ∨ et = "delivery_report"))
    (hne : (s.msgs.filter (vumiMatch channel ext)).isEmpty = false) :
    vumiEventAction channel b s =
      .resp ⟨"Unknown status '" ++ et ++ "', ignoring", 200⟩ s := by
  unfold vumiEventAction
  rw [het, hu]
  simp only [Option.isNone_some, Bool.false_and, Bool.false_eq_true, if_false]
  push_neg at hunk
  obtain ⟨h1, h2, h3⟩ := hunk
  simp [hne, h1, h2, h3]

/-- The event action of `vumiPost` exposed as an equation. -/
theorem vumiPost_event (uuid : String) (b : VumiBody)
    (parseDate : String → Option Nat) (s : Store) :
    vumiPost "event" uuid (some b) parseDate s =
      match activeChannelLookup s.channels uuid
          (if vumiIsUssd b then ChannelType.vumiUssd else .vumi) with
      | none => .resp ⟨"Channel not found for id: " ++ uuid, 404⟩ s
      | some channel => vumiEventAction channel b s := rfl

theorem C5_unrecognized_code_ignored
    (uuid code et : String) (smsId ts message sender : Option String)
    (now : Nat) (s : Store) (vbody : VumiBody)
    (parseDate : String → Option Nat)
    (hcode : kannelStatusChoices code = none)
    (het : vbody.eventType = some et)
    (hunk : ¬(et = "ack" ∨ et = "nack" ∨ et = "delivery_report")) :
    ((kannelPost "status" uuid smsId (some code) ts message sender now s).store = s) ∧
    (∀ channel idStr n,
      activeChannelLookup s.channels uuid .kannel = some channel →
      smsId = some idStr → strToNat? idStr = some n →
      (s.msgs.filter (fun m => m.channelId == channel.id && m.id == n)).isEmpty = false →
      kannelPost "status" uuid smsId (some code) ts message sender now s =
        .resp ⟨"Unrecognized status code: '" ++ code ++ "', ignoring message.", 401⟩ s) ∧
    ((vumiPost "event" uuid (some vbody) parseDate s).store = s ∧
     (∀ channel ext,
       activeChannelLookup s.channels uuid
           (if vumiIsUssd vbody then ChannelType.vumiUssd else .vumi) = some channel →
       vbody.userMessageId = some ext →
       (s.msgs.filter (vumiMatch channel ext)).isEmpty = false →
       vumiPost "event" uuid (some vbody) parseDate s =
         .resp ⟨"Unknown status '" ++ et ++ "', ignoring", 200⟩ s)) := by
  refine ⟨?_, ?_, ?_, ?_⟩
  · unfold kannelPost
    cases hch : activeChannelLookup s.channels uuid .kannel with
    | none => rfl
    | some channel =>
      simp only [if_pos]
      exact kannelStatusAction_unrec_store channel smsId code s hcode
  · intro channel idStr n hch hsms hn hne
    subst hsms
    unfold kannelPost
    rw [hch]
    simp only [if_pos]
    exact kannelStatusAction_unrec_resp channel idStr code n s hcode hn hne
  · rw [vumiPost_event]
    cases hch : activeChannelLookup s.channels uuid
        (if vumiIsUssd vbody then ChannelType.vumiUssd else .vumi) with
    | none => rfl
    | some channel =>
      exact vumiEventAction_unknown_store channel vbody et s het hunk
  · intro channel ext hch hu hne
    rw [vumiPost_event, hch]
    exact vumiEventAction_unknown_resp channel vbody et ext s het hu hunk hne

theorem C5_counterexample :
    kannelPost "status" "u3" (some "21") (some "077") none none none 9 storeKannel =
      .resp ⟨"Unrecognized status code: '077', ignoring message.", 401⟩ storeKannel := by
  decide

theorem C5_witness :
    kannelPost "status" "u3" (some "22") (some "junk") none none none 9 storeKannel =
      .resp ⟨"Unrecognized status code: 'junk', ignoring message.", 401⟩ storeKannel ∧
    vumiPost "event" "u6" (some vumiBodyUnknown) (fun _ => none) storeVumi =
      .resp ⟨"Unknown status '077', ignoring", 200⟩ storeVumi :=
  ⟨(C5_unrecognized_code_ignored "u3" "junk" "077" (some "22") none none none 9
      storeKannel vumiBodyUnknown (fun _ => none) rfl rfl (by decide)).2.1
      chKannel "22" 22 rfl rfl (by decide) (by decide),
   (C5_unrecognized_code_ignored "u6" "junk" "077" (some "22") none none none 9
      storeVumi vumiBodyUnknown (fun _ => none) rfl rfl (by decide)).2.2.2
      chVumi "ext25" (by decide) rfl (by decide)⟩

/-! ## C6: missing required fields -/

/-- The dispatch of `kannelPost` exposed as an equation. -/
theorem kannelPost_dispatch (action uuid : String)
    (smsId statusCode ts message sender : Option String) (now : Nat)
    (s : Store) :
    kannelPost action uuid smsId statusCode ts message sender now s =
      match activeChannelLookup s.channels uuid .kannel with
      | none => .resp ⟨"Channel not found for id: " ++ uuid, 400⟩ s
      | some channel =>
        if action == "status" then
          kannelStatusAction channel smsId statusCode s
        else if action == "receive" then
          kannelReceiveAction channel smsId ts message sender now s
        else
          .resp ⟨"Not handled", 400⟩ s := rfl

/-- The dispatch of `clickatellPost` with no `api_id` exposed as an
equation. -/
theorem clickatellPost_no_api_id (action uuid : String)
    (smsId statusCode smsFrom smsText moMsgId smsTimestamp : Option String)
    (charset : String) (recode : String → String → String)
    (parseDate : String → Option Nat) (s : Store) :
    clickatellPost action uuid none smsId statusCode smsFrom smsText moMsgId
        smsTimestamp charset recode parseDate s =
      match activeChannelLookup s.channels uuid .clickatell with
      | none => .resp ⟨"Channel not found for id: " ++ uuid, 400⟩ s
      | some channel =>
        clickatellAction action channel smsId statusCode smsFrom smsText
          moMsgId smsTimestamp charset recode parseDate s := by
  unfold clickatellPost
  cases activeChannelLookup s.channels uuid .clickatell <;> rfl

/-- A Kannel receive request with a missing required field is rejected
before anything is read or written. -/
theorem kannelReceiveAction_missing (channel : Channel)
    (smsId ts message sender : Option String) (now : Nat) (s : Store)
    (hmiss : smsId = none ∨ ts = none ∨ message = none ∨ sender = none) :
    kannelReceiveAction channel smsId ts message sender now s =
      .resp ⟨"Missing one of 'message', 'sender', 'id' or 'ts' in request parameters.", 400⟩ s := by
  unfold kannelReceiveAction
  cases smsId <;> cases ts <;> cases message <;> cases sender <;>
    first
      | rfl
      | (rcases hmiss with h | h | h | h <;> exact Option.noConfusion h)

/-- A Clickatell status request with a missing required field is
answered with a 200 before anything is read or written. -/
theorem clickatellStatusAction_missing (channel : Channel)
    (smsId statusCode : Option String) (s : Store)
    (hmiss : smsId = none ∨ statusCode = none) :
    clickatellStatusAction channel smsId statusCode s =
      .resp ⟨"Missing one of 'apiMsgId' or 'status' in request parameters.", 200⟩ s := by
  unfold clickatellStatusAction
  cases smsId <;> cases statusCode <;>
    first
      | rfl
      | (rcases hmiss with h | h <;> exact Option.noConfusion h)

/-- A Clickatell receive request with a missing required field is
answered with a 200 before anything is read or written. -/
theorem clickatellReceiveAction_missing (channel : Channel)
    (smsFrom smsText moMsgId smsTimestamp : Option String) (charset : String)
    (recode : String → String → String) (parseDate : String → Option Nat)
    (s : Store)
    (hmiss : smsFrom = none ∨ smsText = none ∨ moMsgId = none ∨
      smsTimestamp = none) :
    clickatellReceiveAction channel smsFrom smsText moMsgId smsTimestamp
        charset recode parseDate s =
      .resp ⟨"Missing one of 'from', 'text', 'moMsgId' or 'timestamp' in request parameters.", 200⟩ s := by
  unfold clickatellReceiveAction
  cases smsFrom <;> cases smsText <;> cases moMsgId <;> cases smsTimestamp <;>
    first
      | rfl
      | (rcases hmiss with h | h | h | h <;> exact Option.noConfusion h)

/-- C6 (amended): a receive or status request missing a required field
creates no message and changes no message status — the store is left
unchanged — and is answered with an error/acknowledgement response whose
HTTP status is handler-specific: 400 in the Kannel handler, but 200 in
the Clickatell handler (Clickatell pings the endpoint during
configuration). -/
theorem C6_missing_field_no_mutation (uuid : String) (now : Nat) (s : Store) :
    (∀ smsId statusCode ts message sender,
      (smsId = none ∨ ts = none ∨ message = none ∨ sender = none) →
      ((kannelPost "receive" uuid smsId statusCode ts message sender now s).store = s ∧
       (∀ channel, activeChannelLookup s.channels uuid .kannel = some channel →
         kannelPost "receive" uuid smsId statusCode ts message sender now s =
           .resp ⟨"Missing one of 'message', 'sender', 'id' or 'ts' in request parameters.", 400⟩ s))) ∧
    (∀ smsId statusCode smsFrom smsText moMsgId smsTimestamp charset recode
        parseDate,
      (smsId = none ∨ statusCode = none) →
      ((clickatellPost "status" uuid none smsId statusCode smsFrom smsText
          moMsgId smsTimestamp charset recode parseDate s).store = s ∧
       (∀ channel, activeChannelLookup s.channels uuid .clickatell = some channel →
         clickatellPost "status" uuid none smsId statusCode smsFrom smsText
             moMsgId smsTimestamp charset recode parseDate s =
           .resp ⟨"Missing one of 'apiMsgId' or 'status' in request parameters.", 200⟩ s))) ∧
    (∀ smsId statusCode smsFrom smsText moMsgId smsTimestamp charset recode
        parseDate,
      (smsFrom = none ∨ smsText = none ∨ moMsgId = none ∨ smsTimestamp = none) →
      ((clickatellPost "receive" uuid none smsId statusCode smsFrom smsText
          moMsgId smsTimestamp charset recode parseDate s).store = s ∧
       (∀ channel, activeChannelLookup s.channels uuid .clickatell = some channel →
         clickatellPost "receive" uuid none smsId statusCode smsFrom smsText
             moMsgId smsTimestamp charset recode parseDate s =
           .resp ⟨"Missing one of 'from', 'text', 'moMsgId' or 'timestamp' in request parameters.", 200⟩ s))) := by
  refine ⟨?_, ?_, ?_⟩
  · intro smsId statusCode ts message sender hmiss
    constructor
    · rw [kannelPost_dispatch]
      cases hch : activeChannelLookup s.channels uuid .kannel with
      | none => rfl
      | some channel =>
        show (kannelReceiveAction channel smsId ts message sender now s).store = s
        rw [kannelReceiveAction_missing channel smsId ts message sender now s hmiss]
        rfl
    · intro channel hch
      rw [kannelPost_dispatch, hch]
      exact kannelReceiveAction_missing channel smsId ts message sender now s hmiss
  · intro smsId statusCode smsFrom smsText moMsgId smsTimestamp charset recode
      parseDate hmiss
    constructor
    · rw [clickatellPost_no_api_id]
      cases hch : activeChannelLookup s.channels uuid .clickatell with
      | none => rfl
      | some channel =>
        show (clickatellStatusAction channel smsId statusCode s).store = s
        rw [clickatellStatusAction_missing channel smsId statusCode s hmiss]
        rfl
    · intro channel hch
      rw [clickatellPost_no_api_id, hch]
      exact clickatellStatusAction_missing channel smsId statusCode s hmiss
  · intro smsId statusCode smsFrom smsText moMsgId smsTimestamp charset recode
      parseDate hmiss
    constructor
    · rw [clickatellPost_no_api_id]
      cases hch : activeChannelLookup s.channels uuid .clickatell with
      | none => rfl
      | some channel =>
        show (clickatellReceiveAction channel smsFrom smsText moMsgId
          smsTimestamp charset recode parseDate s).store = s
        rw [clickatellReceiveAction_missing channel smsFrom smsText moMsgId
          smsTimestamp charset recode parseDate s hmiss]
        rfl
    · intro channel hch
      rw [clickatellPost_no_api_id, hch]
      exact clickatellReceiveAction_missing channel smsFrom smsText moMsgId
        smsTimestamp charset recode parseDate s hmiss

/-- Counterexample for C6 as stated: a Clickatell receive callback with
the required `from` field missing is answered with HTTP 200, not a 4xx
(the store is unchanged). -/
theorem C6_counterexample :
    clickatellPost "receive" "u1" none none none none (some "hello")
        (some "id7") (some "2014-04-18 03:54:20") "utf-8" (fun _ t => t)
        (fun _ => some 0) storeClickatell =
      .resp ⟨"Missing one of 'from', 'text', 'moMsgId' or 'timestamp' in request parameters.", 200⟩ storeClickatell := by
  decide

/-- Witness for C6 (amended) at concrete stores. -/
theorem C6_witness :
    kannelPost "receive" "u3" (some "5") none none (some "hi") none 9 storeKannel =
      .resp ⟨"Missing one of 'message', 'sender', 'id' or 'ts' in request parameters.", 400⟩ storeKannel ∧
    clickatellPost "status" "u1" none none (some "004") none none none none
        "utf-8" (fun _ t => t) (fun _ => some 0) storeClickatell =
      .resp ⟨"Missing one of 'apiMsgId' or 'status' in request parameters.", 200⟩ storeClickatell :=
  ⟨((C6_missing_field_no_mutation "u3" 9 storeKannel).1 (some "5") none none
      (some "hi") none (by simp)).2 chKannel rfl,
   ((C6_missing_field_no_mutation "u1" 9 storeClickatell).2.1 none (some "004")
      none none none none "utf-8" (fun _ t => t) (fun _ => some 0)
      (by simp)).2 chClickatell rfl⟩

/-! ## C8: message timestamps -/

/-- The receive action of `highConnectionGet` exposed as an equation
once the channel is resolved. -/
theorem highConnectionGet_receive (uuid : String)
    (retId statusRaw toNumber fromNumber message receptionDate : Option String)
    (parseDate : String → Option Nat) (now : Nat) (s : Store)
    (channel : Channel)
    (hch : activeChannelLookup s.channels uuid .highConnection = some channel) :
    highConnectionGet "receive" uuid retId statusRaw toNumber fromNumber
        message receptionDate parseDate now s =
      match receptionDate with
      | none => highConnectionCreate channel toNumber fromNumber message now s
      | some d =>
        match parseDate d with
        | none => .exn "ValueError: time data does not match format" s
        | some parsed =>
          highConnectionCreate channel toNumber fromNumber message parsed s := by
  unfold highConnectionGet
  rw [hch]
  rfl

/-- The receive action of `zenviaPost` exposed as an equation once the
channel is resolved. -/
theorem zenviaPost_receive (uuid : String)
    (statusRaw smsIdRaw date fromTel msgText : Option String)
    (parseDate : String → Option Nat) (s : Store) (channel : Channel)
    (hch : activeChannelLookup s.channels uuid .zenvia = some channel) :
    zenviaPost "receive" uuid statusRaw smsIdRaw date fromTel msgText
        parseDate s =
      match date, fromTel, msgText with
      | some d, some fromT, some txt =>
        (match parseDate d with
         | none => .exn "ValueError: time data does not match format" s
         | some parsed =>
           let created := createIncoming s channel.id ("tel:" ++ fromT) txt
             parsed .pending
           .resp ⟨"SMS Accepted: " ++ toString created.1.id, 200⟩ created.2)
      | _, _, _ =>
        .resp ⟨"Missing parameters, requires 'from', 'date' and 'msg'", 400⟩ s := by
  unfold zenviaPost
  rw [hch]
  rfl

/-- C8 (amended): a created message carries the provider-supplied date
when one was given and parses, and the receipt time when the provider
supplied none; an unparsable provider date, however, raises out of
`strptime` and aborts the request before any message is created (shown
for the High Connection and Zenvia receive actions; `parseDate` stands
for `datetime.strptime` with the adapter's format, `none` for the
ValueError it raises). -/
theorem C8_timestamp_default (uuid : String)
    (retId statusRaw : Option String) (toN fromN txt : String)
    (parseDate : String → Option Nat) (now : Nat) (s : Store)
    (channel : Channel) :
    (activeChannelLookup s.channels uuid .highConnection = some channel →
      highConnectionGet "receive" uuid retId statusRaw (some toN) (some fromN)
          (some txt) none parseDate now s =
        .resp ⟨"msg: Msg received, id: " ++ toString s.nextId, 200⟩
          { s with
            msgs := s.msgs ++
              [freshIncoming s.nextId channel.id ("tel:" ++ fromN) txt now],
            nextId := s.nextId + 1 }) ∧
    (∀ d t, activeChannelLookup s.channels uuid .highConnection = some channel →
      parseDate d = some t →
      highConnectionGet "receive" uuid retId statusRaw (some toN) (some fromN)
          (some txt) (some d) parseDate now s =
        .resp ⟨"msg: Msg received, id: " ++ toString s.nextId, 200⟩
          { s with
            msgs := s.msgs ++
              [freshIncoming s.nextId channel.id ("tel:" ++ fromN) txt t],
            nextId := s.nextId + 1 }) ∧
    (∀ d, activeChannelLookup s.channels uuid .highConnection = some channel →
      parseDate d = none →
      highConnectionGet "receive" uuid retId statusRaw (some toN) (some fromN)
          (some txt) (some d) parseDate now s =
        .exn "ValueError: time data does not match format" s) ∧
    (∀ d zch, activeChannelLookup s.channels uuid .zenvia = some zch →
      parseDate d = none →
      zenviaPost "receive" uuid none none (some d) (some fromN) (some txt)
          parseDate s =
        .exn "ValueError: time data does not match format" s) := by
  refine ⟨?_, ?_, ?_, ?_⟩
  · intro hch
    rw [highConnectionGet_receive uuid retId statusRaw (some toN) (some fromN)
      (some txt) none parseDate now s channel hch]
    rfl
  · intro d t hch hd
    rw [highConnectionGet_receive uuid retId statusRaw (some toN) (some fromN)
      (some txt) (some d) parseDate now s channel hch]
    show (match parseDate d with
      | none => HResult.exn "ValueError: time data does not match format" s
      | some parsed =>
        highConnectionCreate channel (some toN) (some fromN) (some txt) parsed s) =
      _
    rw [hd]
    rfl
  · intro d hch hd
    rw [highConnectionGet_receive uuid retId statusRaw (some toN) (some fromN)
      (some txt) (some d) parseDate now s channel hch]
    show (match parseDate d with
      | none => HResult.exn "ValueError: time data does not match format" s
      | some parsed =>
        highConnectionCreate channel (some toN) (some fromN) (some txt) parsed s) =
      _
    rw [hd]
  · intro d zch hch hd
    rw [zenviaPost_receive uuid none none (some d) (some fromN) (some txt)
      parseDate s zch hch]
    show (match parseDate d with
      | none => HResult.exn "ValueError: time data does not match format" s
      | some parsed =>
        let created := createIncoming s zch.id ("tel:" ++ fromN) txt
          parsed .pending
        HResult.resp ⟨"SMS Accepted: " ++ toString created.1.id, 200⟩
          created.2) = _
    rw [hd]

/-- Counterexample for C8 as stated: a High Connection receive callback
whose `RECEPTION_DATE` does not parse raises out of `strptime` and
aborts the request — it does not fall back to the receipt time.  The
date function models `strptime` raising ValueError on this input. -/
theorem C8_counterexample :
    highConnectionGet "receive" "u8" none none (some "+123") (some "+124")
        (some "hello") (some "garbage") (fun _ => none) 55 storeHighConn =
      .exn "ValueError: time data does not match format" storeHighConn := by
  decide

/-- Witness for C8 (amended): with no provider date the created message
carries the receipt time 55; with a parsable one it carries the parsed
time 1000. -/
theorem C8_witness :
    highConnectionGet "receive" "u8" none none (some "+123") (some "+124")
        (some "hello") none (fun _ => none) 55 storeHighConn =
      .resp ⟨"msg: Msg received, id: 50", 200⟩
        { storeHighConn with
          msgs := [freshIncoming 50 8 "tel:+124" "hello" 55], nextId := 51 } ∧
    highConnectionGet "receive" "u8" none none (some "+123") (some "+124")
        (some "hello") (some "2015-04-02T14:26:06") (fun _ => some 1000) 55
        storeHighConn =
      .resp ⟨"msg: Msg received, id: 50", 200⟩
        { storeHighConn with
          msgs := [freshIncoming 50 8 "tel:+124" "hello" 1000], nextId := 51 } := by
  constructor
  · have h := (C8_timestamp_default "u8" none none "+123" "+124" "hello"
      (fun _ => none) 55 storeHighConn chHighConn).1 rfl
    simpa using h
  · have h := (C8_timestamp_default "u8" none none "+123" "+124" "hello"
      (fun _ => some 1000) 55 storeHighConn chHighConn).2.1
      "2015-04-02T14:26:06" 1000 rfl rfl
    simpa using h

/-! ## C1: authentication gates -/

/-- With an invalid signature, the TwiML callback action raises or
rejects before any status transition; the store is untouched. -/
theorem twimlCallbackAction_invalid_store (smsIdParam smsStatus : Option String)
    (orgConnected : Bool) (s : Store) :
    (twimlCallbackAction smsIdParam smsStatus orgConnected false s).store = s := by
  unfold twimlCallbackAction
  cases smsIdParam with
  | none => rfl
  | some idStr =>
    cases h : strToNat? idStr with
    | none => simp [h, HResult.store]
    | some n =>
      cases hf : s.msgs.find? (fun m => m.id == n) with
      | none => simp [h, hf, HResult.store]
      | some m => cases orgConnected <;> simp [h, hf, HResult.store]

/-- With an invalid signature, the TwiML receive action raises before
any message creation; the store is untouched. -/
theorem twimlReceiveAction_invalid_store (uuid tnd : String)
    (postBody postFrom : Option String) (mediaUrls : List String)
    (downloadMedia : String → String) (now : Nat) (s : Store) :
    (twimlReceiveAction uuid tnd false postBody postFrom mediaUrls
        downloadMedia now s).store = s := by
  unfold twimlReceiveAction
  cases hch : activeChannelLookup s.channels uuid .twiml with
  | none => rfl
  | some channel => rfl

/-- With an invalid signature, no action of the TwiML dispatch mutates
the store. -/
theorem twimlActionDispatch_invalid_store (action uuid tnd : String)
    (smsIdParam smsStatus postBody postFrom : Option String)
    (mediaUrls : List String) (downloadMedia : String → String)
    (orgConnected : Bool) (now : Nat) (s : Store) :
    (twimlActionDispatch action uuid tnd smsIdParam smsStatus postBody postFrom
        mediaUrls downloadMedia false orgConnected now s).store = s := by
  unfold twimlActionDispatch
  by_cases h1 : (action == "callback") = true
  · rw [if_pos h1]
    exact twimlCallbackAction_invalid_store smsIdParam smsStatus orgConnected s
  · rw [if_neg h1]
    by_cases h2 : (action == "received") = true
    · rw [if_pos h2]
      exact twimlReceiveAction_invalid_store uuid tnd postBody postFrom
        mediaUrls downloadMedia now s
    · rw [if_neg h2]; rfl

/-- A bad or missing Mage authorization header is a 401 before anything
else happens. -/
theorem magePost_bad_token (action authHeader mageToken : String)
    (newContactRaw messageIdRaw channelIdRaw contactUrnIdRaw : Option String)
    (s : Store) (hbad : strSplitOnChar ' ' authHeader ≠ ["Token", mageToken]) :
    magePost action authHeader mageToken newContactRaw messageIdRaw
        channelIdRaw contactUrnIdRaw s =
      .resp ⟨"error: Incorrect authentication token", 401⟩ s := by
  unfold magePost
  cases h : strSplitOnChar ' ' authHeader with
  | nil => rfl
  | cons a rest =>
    cases rest with
    | nil => rfl
    | cons b rest2 =>
      cases rest2 with
      | cons c rest3 => rfl
      | nil =>
        rw [h] at hbad
        by_cases ha : a = "Token"
        · by_cases hb : b = mageToken
          · exact absurd (by rw [ha, hb]) hbad
          · simp [ha, bne_iff_ne, hb]
        · simp [bne_iff_ne, ha]

/-- With an invalid signature, `twimlPostNormalized` never mutates the
store: the voice-call branch requires a valid signature before touching
contacts or calls, and the action dispatch re-checks it. -/
theorem twimlPostNormalized_invalid_store (action uuid : String)
    (callSid direction callStatus : Option String) (tn1 : String)
    (smsIdParam smsStatus postBody postFrom : Option String)
    (mediaUrls : List String) (downloadMedia : String → String)
    (orgConnected flowFound : Bool) (now : Nat) (s : Store) :
    (twimlPostNormalized action uuid callSid direction callStatus tn1
        smsIdParam smsStatus postBody postFrom mediaUrls downloadMedia false
        orgConnected flowFound now s).store = s := by
  unfold twimlPostNormalized
  by_cases hring : (tn1 != "" && truthy callSid && direction == some "inbound"
      && callStatus == some "ringing") = true
  · rw [if_pos hring]
    cases hch : twimlRingingChannelLookup s.channels tn1 with
    | none => rfl
    | some channel =>
      show (twimlActionDispatch action uuid tn1 smsIdParam smsStatus postBody
        postFrom mediaUrls downloadMedia false orgConnected now s).store = s
      exact twimlActionDispatch_invalid_store action uuid tn1 smsIdParam
        smsStatus postBody postFrom mediaUrls downloadMedia orgConnected now s
  · rw [if_neg hring]
    exact twimlActionDispatch_invalid_store action uuid tn1 smsIdParam
      smsStatus postBody postFrom mediaUrls downloadMedia orgConnected now s

/-- C1: for the signature-authenticated TwiML API handler and the
token-authenticated Mage handler, a failed or missing credential check
is a hard reject that happens before any state mutation: no message is
created or updated and no collaborator event is fired — the store is
unchanged regardless of how well-formed the rest of the payload is. -/
theorem C1_auth_gate_no_mutation (action uuid : String)
    (callSid direction callStatus toNumber toCountry : Option String)
    (normNum : String → String)
    (smsIdParam smsStatus postBody postFrom : Option String)
    (mediaUrls : List String) (downloadMedia : String → String)
    (orgConnected flowFound : Bool) (now : Nat) (s : Store)
    (authHeader mageToken : String)
    (newContactRaw messageIdRaw channelIdRaw contactUrnIdRaw : Option String)
    (hbad : strSplitOnChar ' ' authHeader ≠ ["Token", mageToken]) :
    (twimlPost action uuid callSid direction callStatus toNumber toCountry
        normNum smsIdParam smsStatus postBody postFrom mediaUrls downloadMedia
        false orgConnected flowFound now s).store = s ∧
    magePost action authHeader mageToken newContactRaw messageIdRaw
        channelIdRaw contactUrnIdRaw s =
      .resp ⟨"error: Incorrect authentication token", 401⟩ s := by
  constructor
  · unfold twimlPost
    cases toNumber with
    | none => rfl
    | some tn =>
      exact twimlPostNormalized_invalid_store action uuid callSid direction
        callStatus _ smsIdParam smsStatus postBody postFrom mediaUrls
        downloadMedia orgConnected flowFound now s
  · exact magePost_bad_token action authHeader mageToken newContactRaw
      messageIdRaw channelIdRaw contactUrnIdRaw s hbad

/-- Witness for C1: a fully well-formed TwiML receive payload with an
invalid signature leaves the store unchanged, and a Mage request with a
wrong token is answered 401 with the store unchanged. -/
theorem C1_witness :
    (twimlPost "received" "u9" none none none (some "+777") none (fun x => x)
        none none (some "hello") (some "+779") [] (fun x => x) false true true
        7 storeTwiml).store = storeTwiml ∧
    magePost "handle_message" "Token wrong" "secret" none (some "61") none none
        storeTwiml =
      .resp ⟨"error: Incorrect authentication token", 401⟩ storeTwiml :=
  C1_auth_gate_no_mutation "received" "u9" none none none (some "+777") none
    (fun x => x) none none (some "hello") (some "+779") [] (fun x => x) true
    true 7 storeTwiml "Token wrong" "secret" none (some "61") none none
    (by decide)

/-! ## C2 and C3: SENT monotonicity and DELIVERED idempotence -/

/-- `Msg.status_sent` does not move a message that is already SENT or
DELIVERED. -/
theorem status_sent_fixed (m : Msg)
    (hst : m.status = .sent ∨ m.status = .delivered) :
    m.status_sent = m := by
  unfold Msg.status_sent
  rcases hst with h | h <;> simp [statusInPQW, h]

/-- The Kannel SENT step leaves a SENT or DELIVERED message unchanged. -/
theorem kannelApplyStatus_sent_fixed (ch : Channel) (n : Nat) (m : Msg)
    (hst : m.status = .sent ∨ m.status = .delivered) :
    kannelApplyStatus ch n .sent m = m := by
  unfold kannelApplyStatus
  rcases hst with h | h <;>
    simp [statusInPQW, h, Msg.status_sent]

/-- The Kannel SENT step moves only PENDING/QUEUED/WIRED messages. -/
theorem kannelApplyStatus_sent_only_pqw (ch : Channel) (n : Nat) (m : Msg)
    (h : kannelApplyStatus ch n .sent m ≠ m) :
    statusInPQW m.status = true := by
  by_contra hc
  apply h
  rw [Bool.not_eq_true] at hc
  unfold kannelApplyStatus
  simp [hc]

/-- Positions of `updateFirstMsg`: each entry is either untouched or is
the first match, rewritten by `f`. -/
theorem updateFirstMsg_getElem? (p : Msg → Bool) (f : Msg → Msg) :
    ∀ (msgs : List Msg) (i : Nat),
      (updateFirstMsg msgs p f)[i]? = msgs[i]? ∨
      (∃ m, msgs[i]? = some m ∧ p m = true ∧
        (updateFirstMsg msgs p f)[i]? = some (f m)) := by
  intro msgs
  induction msgs with
  | nil => intro i; left; rfl
  | cons hd tl ih =>
    intro i
    unfold updateFirstMsg
    by_cases hp : p hd
    · rw [if_pos hp]
      cases i with
      | zero => right; exact ⟨hd, by simp, hp, by simp⟩
      | succ j => left; rfl
    · rw [if_neg hp]
      cases i with
      | zero => left; simp
      | succ j =>
        rcases ih j with h | ⟨m, hm, hpm, h⟩
        · left; simpa using h
        · right; exact ⟨m, by simpa using hm, hpm, by simpa using h⟩

/-- The store after the Kannel status action: unchanged, or the
per-message map of a code from the status table. -/
theorem kannelStatusAction_store_cases (channel : Channel)
    (smsId statusCode : Option String) (s : Store) :
    (kannelStatusAction channel smsId statusCode s).store = s ∨
    ∃ n st, statusCode.bind kannelStatusChoices = some st ∧
      (kannelStatusAction channel smsId statusCode s).store =
        { s with msgs := s.msgs.map (kannelApplyStatus channel n st) } := by
  unfold kannelStatusAction
  by_cases hg : (smsId.isNone && statusCode.isNone) = true
  · rw [if_pos hg]; left; rfl
  · rw [if_neg hg]
    cases smsId with
    | none => left; rfl
    | some idStr =>
      cases h : strToNat? idStr with
      | none => left; simp [h, HResult.store]
      | some n =>
        by_cases he :
            (s.msgs.filter (fun m => m.channelId == channel.id && m.id == n)).isEmpty
        · left; simp [h, he, HResult.store]
        · cases hb : statusCode.bind kannelStatusChoices with
          | none => left; simp [h, he, hb, HResult.store]
          | some st =>
            right
            exact ⟨n, st, rfl, by simp [h, he, hb, HResult.store]⟩

/-- The store after the TwiML callback action: unchanged, or the first
message with the callback id rewritten by the status transition. -/
theorem twimlCallbackAction_store_cases (smsIdParam smsStatus : Option String)
    (oc va : Bool) (s : Store) :
    (twimlCallbackAction smsIdParam smsStatus oc va s).store = s ∨
    ∃ n, (twimlCallbackAction smsIdParam smsStatus oc va s).store =
      { s with
        msgs := updateFirstMsg s.msgs (fun m => m.id == n)
          (fun m =>
            if smsStatus == some "sent" then m.status_sent
            else if smsStatus == some "delivered" then m.status_delivered
            else if smsStatus == some "failed" then m.fail
            else m) } := by
  unfold twimlCallbackAction
  cases smsIdParam with
  | none => left; rfl
  | some idStr =>
    cases h : strToNat? idStr with
    | none => left; simp [h, HResult.store]
    | some n =>
      cases hf : s.msgs.find? (fun m => m.id == n) with
      | none => left; simp [h, hf, HResult.store]
      | some m0 =>
        cases oc with
        | false => left; simp [h, hf, HResult.store]
        | true =>
          cases va with
          | false => left; simp [h, hf, HResult.store]
          | true => right; exact ⟨n, by simp [h, hf, HResult.store]⟩

/-- C2: a delivery-status callback that maps to SENT is applied only to
messages still PENDING, QUEUED or WIRED; a message already SENT or
DELIVERED is left exactly where it was, both by the Kannel status action
and by the TwiML callback action — so a DELIVERED message is never
reverted to SENT. -/
theorem C2_sent_monotonic (uuid : String)
    (smsId ts message sender : Option String) (code : String) (now : Nat)
    (s : Store) (i : Nat) (m : Msg)
    (hcode : kannelStatusChoices code = some .sent)
    (hm : s.msgs[i]? = some m)
    (hst : m.status = .sent ∨ m.status = .delivered) :
    ((kannelPost "status" uuid smsId (some code) ts message sender now
        s).store.msgs[i]? = some m) ∧
    (∀ smsIdParam orgConnected validate,
      (twimlCallbackAction smsIdParam (some "sent") orgConnected validate
        s).store.msgs[i]? = some m) ∧
    (∀ ch n (m2 : Msg), kannelApplyStatus ch n .sent m2 ≠ m2 →
      statusInPQW m2.status = true) := by
  refine ⟨?_, ?_, ?_⟩
  · rw [kannelPost_dispatch]
    cases hch : activeChannelLookup s.channels uuid .kannel with
    | none => exact hm
    | some channel =>
      show (kannelStatusAction channel smsId (some code) s).store.msgs[i]? = some m
      rcases kannelStatusAction_store_cases channel smsId (some code) s with
        h | ⟨n, st, hb, h⟩
      · rw [h]; exact hm
      · have hst' : st = .sent := by
          rw [Option.some_bind, hcode] at hb
          exact (Option.some.injEq _ _ ▸ hb).symm ▸ rfl
        subst hst'
        rw [h]
        show (s.msgs.map (kannelApplyStatus channel n .sent))[i]? = some m
        rw [List.getElem?_map, hm]
        simp [kannelApplyStatus_sent_fixed channel n m hst]
  · intro smsIdParam orgConnected validate
    rcases twimlCallbackAction_store_cases smsIdParam (some "sent") orgConnected
      validate s with h | ⟨n, h⟩
    · rw [h]; exact hm
    · rw [h]
      show (updateFirstMsg s.msgs (fun mm => mm.id == n) _)[i]? = some m
      rcases updateFirstMsg_getElem? (fun mm => mm.id == n)
        (fun mm =>
          if (some "sent" : Option String) == some "sent" then mm.status_sent
          else if (some "sent" : Option String) == some "delivered" then
            mm.status_delivered
          else if (some "sent" : Option String) == some "failed" then mm.fail
          else mm) s.msgs i with h2 | ⟨m2, hm2, hp2, h2⟩
      · rw [h2]; exact hm
      · rw [hm] at hm2
        injection hm2 with e
        subst e
        rw [h2]
        simp [status_sent_fixed m hst]
  · exact fun ch n m2 h => kannelApplyStatus_sent_only_pqw ch n m2 h

/-- Witness for C2: the Kannel code 4 (a SENT report) leaves the already
DELIVERED message untouched at its position. -/
theorem C2_witness :
    (kannelPost "status" "u3" (some "22") (some "4") none none none 9
        storeKannel).store.msgs[1]? = some msgDelivered :=
  (C2_sent_monotonic "u3" (some "22") none none none "4" 9 storeKannel 1
    msgDelivered (by decide) (by decide) (Or.inr (by decide))).1

/-- The Kannel status step neither changes a message's id nor its
channel, so it preserves the lookup condition. -/
theorem kannelApplyStatus_preserves_match (ch : Channel) (n : Nat)
    (st : MsgStatus) (m : Msg) :
    ((kannelApplyStatus ch n st m).channelId == ch.id &&
      (kannelApplyStatus ch n st m).id == n) =
    (m.channelId == ch.id && m.id == n) := by
  unfold kannelApplyStatus Msg.status_sent Msg.status_delivered Msg.fail
  repeat' split
  all_goals rfl

/-- The Kannel DELIVERED step is idempotent. -/
theorem kannelApplyStatus_delivered_idem (ch : Channel) (n : Nat) (m : Msg) :
    kannelApplyStatus ch n .delivered (kannelApplyStatus ch n .delivered m) =
      kannelApplyStatus ch n .delivered m := by
  by_cases hq : (m.channelId == ch.id && m.id == n) = true
  · have h1 : kannelApplyStatus ch n .delivered m = m.status_delivered := by
      unfold kannelApplyStatus
      rw [if_pos hq]
      rfl
    rw [h1]
    have hq2 : ((m.status_delivered).channelId == ch.id &&
        (m.status_delivered).id == n) = true := hq
    unfold kannelApplyStatus
    rw [if_pos hq2]
    rfl
  · have h1 : kannelApplyStatus ch n .delivered m = m := by
      unfold kannelApplyStatus
      rw [if_neg hq]
    rw [h1]
    unfold kannelApplyStatus
    rw [if_neg hq]

/-- Mapping preserves emptiness. -/
theorem isEmpty_map {α β : Type} (f : α → β) (l : List α) :
    (l.map f).isEmpty = l.isEmpty := by
  cases l <;> rfl

/-- `find?` after `updateFirstMsg` with a predicate the update preserves
finds the rewritten first match. -/
theorem find?_updateFirstMsg (p : Msg → Bool) (f : Msg → Msg)
    (hp : ∀ m, p (f m) = p m) :
    ∀ msgs : List Msg,
      (updateFirstMsg msgs p f).find? p = (msgs.find? p).map f := by
  intro msgs
  induction msgs with
  | nil => rfl
  | cons hd tl ih =>
    by_cases hph : p hd = true
    · unfold updateFirstMsg
      rw [if_pos hph]
      rw [List.find?_cons_of_pos _ (by rw [hp]; exact hph)]
      rw [List.find?_cons_of_pos _ hph]
      rfl
    · unfold updateFirstMsg
      rw [if_neg hph]
      rw [List.find?_cons_of_neg _ (by simpa using hph)]
      rw [List.find?_cons_of_neg _ (by simpa using hph)]
      exact ih

/-- The cons equations of `updateFirstMsg`. -/
theorem updateFirstMsg_cons_pos (p : Msg → Bool) (f : Msg → Msg) (hd : Msg)
    (tl : List Msg) (h : p hd = true) :
    updateFirstMsg (hd :: tl) p f = f hd :: tl := by
  unfold updateFirstMsg
  rw [if_pos h]

theorem updateFirstMsg_cons_neg (p : Msg → Bool) (f : Msg → Msg) (hd : Msg)
    (tl : List Msg) (h : ¬p hd = true) :
    updateFirstMsg (hd :: tl) p f = hd :: updateFirstMsg tl p f := by
  conv_lhs => unfold updateFirstMsg
  rw [if_neg h]

/-- `updateFirstMsg` is idempotent when the update is and the predicate
is preserved. -/
theorem updateFirstMsg_idem (p : Msg → Bool) (f : Msg → Msg)
    (hp : ∀ m, p (f m) = p m) (hf : ∀ m, f (f m) = f m) :
    ∀ msgs : List Msg,
      updateFirstMsg (updateFirstMsg msgs p f) p f =
        updateFirstMsg msgs p f := by
  intro msgs
  induction msgs with
  | nil => rfl
  | cons hd tl ih =>
    by_cases hph : p hd = true
    · rw [updateFirstMsg_cons_pos p f hd tl hph]
      rw [updateFirstMsg_cons_pos p f (f hd) tl (by rw [hp]; exact hph)]
      rw [hf]
    · rw [updateFirstMsg_cons_neg p f hd tl hph]
      rw [updateFirstMsg_cons_neg p f hd (updateFirstMsg tl p f) hph]
      rw [ih]

/-- The Kannel status action does not touch the channel table. -/
theorem kannelStatusAction_frame (channel : Channel)
    (smsId statusCode : Option String) (s : Store) :
    (kannelStatusAction channel smsId statusCode s).store.channels =
      s.channels := by
  rcases kannelStatusAction_store_cases channel smsId statusCode s with
    h | ⟨n, st, _, h⟩ <;> rw [h]

/-- The idempotence core for the Kannel DELIVERED callback. -/
theorem kannelStatusAction_delivered_idem (channel : Channel)
    (smsId : Option String) (code : String) (s : Store)
    (hcode : kannelStatusChoices code = some .delivered) :
    kannelStatusAction channel smsId (some code)
        (kannelStatusAction channel smsId (some code) s).store =
      kannelStatusAction channel smsId (some code) s := by
  cases smsId with
  | none =>
    have h : kannelStatusAction channel none (some code) s =
        .resp ⟨"Message with external id of 'None' not found", 400⟩ s := by
      unfold kannelStatusAction
      rfl
    rw [h]
    exact h
  | some idStr =>
    cases hn : strToNat? idStr with
    | none =>
      have h : kannelStatusAction channel (some idStr) (some code) s =
          .exn "ValueError: invalid message id" s := by
        unfold kannelStatusAction
        simp [hn]
      rw [h]
      exact h
    | some n =>
      by_cases he : (s.msgs.filter
          (fun m => m.channelId == channel.id && m.id == n)).isEmpty = true
      · have h : kannelStatusAction channel (some idStr) (some code) s =
            .resp ⟨"Message with external id of '" ++ idStr ++ "' not found", 400⟩ s := by
          unfold kannelStatusAction
          simp [hn, he]
        rw [h]
        exact h
      · have h : kannelStatusAction channel (some idStr) (some code) s =
            .resp ⟨"SMS Status Updated", 200⟩
              { s with msgs :=
                  s.msgs.map (kannelApplyStatus channel n .delivered) } := by
          unfold kannelStatusAction
          simp [hn, he, hcode, HResult.store]
        rw [h]
        show kannelStatusAction channel (some idStr) (some code)
            { s with msgs := s.msgs.map (kannelApplyStatus channel n .delivered) } =
          .resp ⟨"SMS Status Updated", 200⟩
            { s with msgs := s.msgs.map (kannelApplyStatus channel n .delivered) }
        have hfeq : (s.msgs.map (kannelApplyStatus channel n .delivered)).filter
            (fun m => m.channelId == channel.id && m.id == n) =
            (s.msgs.filter
              (fun m => m.channelId == channel.id && m.id == n)).map
              (kannelApplyStatus channel n .delivered) := by
          rw [List.filter_map]
          congr 1
          exact List.filter_congr
            (fun a _ => kannelApplyStatus_preserves_match channel n .delivered a)
        have he2 : ((s.msgs.map (kannelApplyStatus channel n .delivered)).filter
            (fun m => m.channelId == channel.id && m.id == n)).isEmpty = false := by
          rw [hfeq, isEmpty_map]
          simpa using he
        have h2 : kannelStatusAction channel (some idStr) (some code)
            { s with msgs := s.msgs.map (kannelApplyStatus channel n .delivered) } =
            .resp ⟨"SMS Status Updated", 200⟩
              { s with
                msgs :=
                  (s.msgs.map (kannelApplyStatus channel n .delivered)).map
                    (kannelApplyStatus channel n .delivered) } := by
          unfold kannelStatusAction
          simp [hn, he2, hcode, HResult.store]
        rw [h2]
        have h3 : (s.msgs.map (kannelApplyStatus channel n .delivered)).map
            (kannelApplyStatus channel n .delivered) =
            s.msgs.map (kannelApplyStatus channel n .delivered) := by
          rw [List.map_map]
          exact List.map_congr_left
            (fun a _ => kannelApplyStatus_delivered_idem channel n a)
        rw [h3]

/-- The status action of `viberPost` exposed as an equation. -/
theorem viberPost_status (uuid : String) (body : Option ViberBody) (s : Store) :
    viberPost "status" uuid body s =
      match activeChannelLookup s.channels uuid .viber with
      | none => .resp ⟨"Channel not found for id: " ++ uuid, 400⟩ s
      | some channel =>
        match body with
        | none => .resp ⟨"Invalid JSON in POST body", 400⟩ s
        | some b => viberStatusAction channel b s := by
  unfold viberPost
  cases activeChannelLookup s.channels uuid .viber with
  | none => rfl
  | some channel => cases body <;> rfl

/-- The Viber status action does not touch the channel table. -/
theorem viberStatusAction_frame (channel : Channel) (b : ViberBody)
    (s : Store) :
    (viberStatusAction channel b s).store.channels = s.channels := by
  unfold viberStatusAction
  cases ht : b.messageToken with
  | none => rfl
  | some tok =>
    cases hf : s.msgs.find? (viberMatch channel (toString tok)) with
    | none => simp [hf, HResult.store]
    | some m0 => simp [hf, HResult.store]

/-- The idempotence core for the Viber DELIVERED callback. -/
theorem viberStatusAction_idem (channel : Channel) (b : ViberBody)
    (s : Store) :
    viberStatusAction channel b (viberStatusAction channel b s).store =
      viberStatusAction channel b s := by
  cases ht : b.messageToken with
  | none =>
    have h : viberStatusAction channel b s = .exn "KeyError: message_token" s := by
      unfold viberStatusAction
      rw [ht]
    rw [h]
    exact h
  | some tok =>
    cases hf : s.msgs.find? (viberMatch channel (toString tok)) with
    | none =>
      have h : viberStatusAction channel b s =
          .resp ⟨"Message with external id of '" ++ toString tok ++
                 "' not found", 200⟩ s := by
        unfold viberStatusAction
        rw [ht]
        simp [hf]
      rw [h]
      exact h
    | some m0 =>
      have h : viberStatusAction channel b s =
          .resp ⟨"Msg " ++ toString m0.id ++ " updated", 200⟩
            { s with
              msgs := updateFirstMsg s.msgs
                (viberMatch channel (toString tok)) Msg.status_delivered } := by
        unfold viberStatusAction
        rw [ht]
        simp [hf]
      rw [h]
      show viberStatusAction channel b
          { s with
            msgs := updateFirstMsg s.msgs
              (viberMatch channel (toString tok)) Msg.status_delivered } =
        .resp ⟨"Msg " ++ toString m0.id ++ " updated", 200⟩
          { s with
            msgs := updateFirstMsg s.msgs
              (viberMatch channel (toString tok)) Msg.status_delivered }
      have hp : ∀ m : Msg, viberMatch channel (toString tok)
          (m.status_delivered) = viberMatch channel (toString tok) m :=
        fun m => rfl
      have hf2 : (updateFirstMsg s.msgs (viberMatch channel (toString tok))
          Msg.status_delivered).find? (viberMatch channel (toString tok)) =
          some (m0.status_delivered) := by
        rw [find?_updateFirstMsg _ _ hp, hf]
        rfl
      have h2 : viberStatusAction channel b
          { s with
            msgs := updateFirstMsg s.msgs
              (viberMatch channel (toString tok)) Msg.status_delivered } =
          .resp ⟨"Msg " ++ toString (m0.status_delivered).id ++ " updated", 200⟩
            { s with
              msgs := updateFirstMsg (updateFirstMsg s.msgs
                (viberMatch channel (toString tok)) Msg.status_delivered)
                (viberMatch channel (toString tok)) Msg.status_delivered } := by
        unfold viberStatusAction
        rw [ht]
        simp [hf2]
      rw [h2]
      have hid : (m0.status_delivered).id = m0.id := rfl
      rw [hid]
      rw [updateFirstMsg_idem (viberMatch channel (toString tok))
        Msg.status_delivered hp (fun m => rfl) s.msgs]

/-- C3: applying the same DELIVERED status callback twice yields the
same result as applying it once — the second application returns the
same response and leaves the store exactly as the first left it, so it
is a no-op on the message's status, not an error, and fires no
additional event (shown for the Kannel status action on a code from its
table that maps to DELIVERED, and for the Viber status action). -/
theorem C3_delivered_idempotent (uuid code : String)
    (smsId ts message sender : Option String) (now now2 : Nat) (s : Store)
    (body : Option ViberBody)
    (hcode : kannelStatusChoices code = some .delivered) :
    kannelPost "status" uuid smsId (some code) ts message sender now2
        (kannelPost "status" uuid smsId (some code) ts message sender now
          s).store =
      kannelPost "status" uuid smsId (some code) ts message sender now s ∧
    viberPost "status" uuid body (viberPost "status" uuid body s).store =
      viberPost "status" uuid body s := by
  constructor
  · cases hch : activeChannelLookup s.channels uuid .kannel with
    | none =>
      have h1 : kannelPost "status" uuid smsId (some code) ts message sender
          now s = .resp ⟨"Channel not found for id: " ++ uuid, 400⟩ s := by
        rw [kannelPost_dispatch, hch]
      rw [h1]
      show kannelPost "status" uuid smsId (some code) ts message sender now2 s = _
      rw [kannelPost_dispatch, hch]
    | some channel =>
      have h1 : kannelPost "status" uuid smsId (some code) ts message sender
          now s = kannelStatusAction channel smsId (some code) s := by
        rw [kannelPost_dispatch, hch]
        rfl
      rw [h1]
      have h2 : kannelPost "status" uuid smsId (some code) ts message sender
          now2 (kannelStatusAction channel smsId (some code) s).store =
          kannelStatusAction channel smsId (some code)
            (kannelStatusAction channel smsId (some code) s).store := by
        rw [kannelPost_dispatch]
        rw [show activeChannelLookup
          (kannelStatusAction channel smsId (some code) s).store.channels uuid
          .kannel = some channel from
          (kannelStatusAction_frame channel smsId (some code) s).symm ▸ hch]
        rfl
      rw [h2]
      exact kannelStatusAction_delivered_idem channel smsId code s hcode
  · cases hch : activeChannelLookup s.channels uuid .viber with
    | none =>
      have h1 : viberPost "status" uuid body s =
          .resp ⟨"Channel not found for id: " ++ uuid, 400⟩ s := by
        rw [viberPost_status, hch]
      rw [h1]
      show viberPost "status" uuid body s = _
      rw [viberPost_status, hch]
    | some channel =>
      cases body with
      | none =>
        have h1 : viberPost "status" uuid none s =
            .resp ⟨"Invalid JSON in POST body", 400⟩ s := by
          rw [viberPost_status, hch]
        rw [h1]
        show viberPost "status" uuid none s = _
        rw [viberPost_status, hch]
      | some b =>
        have h1 : viberPost "status" uuid (some b) s =
            viberStatusAction channel b s := by
          rw [viberPost_status, hch]
        rw [h1]
        have h2 : viberPost "status" uuid (some b)
            (viberStatusAction channel b s).store =
            viberStatusAction channel b
              (viberStatusAction channel b s).store := by
          rw [viberPost_status]
          rw [show activeChannelLookup
            (viberStatusAction channel b s).store.channels uuid .viber =
            some channel from
            (viberStatusAction_frame channel b s).symm ▸ hch]
        rw [h2]
        exact viberStatusAction_idem channel b s

/-- Witness for C3 at concrete Kannel and Viber stores. -/
theorem C3_witness :
    kannelPost "status" "u3" (some "21") (some "1") none none none 9
        (kannelPost "status" "u3" (some "21") (some "1") none none none 8
          storeKannel).store =
      kannelPost "status" "u3" (some "21") (some "1") none none none 8
        storeKannel ∧
    viberPost "status" "u11" (some viberStatusBody)
        (viberPost "status" "u11" (some viberStatusBody) storeViber).store =
      viberPost "status" "u11" (some viberStatusBody) storeViber :=
  ⟨(C3_delivered_idempotent "u3" "1" (some "21") none none none 8 9 storeKannel
      (some viberStatusBody) (by decide)).1,
   (C3_delivered_idempotent "u11" "1" (some "21") none none none 8 9 storeViber
      (some viberStatusBody) (by decide)).2⟩
